import Mathlib

/-!
# Marching cubes polygonizer

A shallow embedding of `src/src/marching_cubes.cpp` (with the declarations of
`src/include/marching_cubes.h`) and the properties of its traversal, cube
classification, edge interpolation and triangle assembly.

Conventions of the embedding.

* `float` is an arbitrary linearly ordered field `F` (exact arithmetic): the
  definitions run on `ℚ` and the real-number statements take `F := ℝ`.
  Rounding, infinities and NaN are not represented there; Lean's division is
  total with `a / 0 = 0`, so a statement that depends on a quotient is made
  where its divisor is nonzero, or says that the divisor is zero. Where a
  statement is about the rounded result, the source lines are evaluated in
  `Float32`, binary32 with round-to-nearest-even, infinities and NaN.
* `int` is `Int` for the stored step counts and `Nat` for loop counters and
  bit masks, all of which are non-negative in the source; overflow is not
  represented.
* `vector<Vertex> &triangle_verts` is a `List` passed in and returned;
  `push_back` appends at the end.
* `glm::vec3`, `glm::cross` and `glm::normalize` are the GLM operations;
  the square root used by `glm::normalize` is a parameter `sqrt : F → F`.
* The arrays `edge_table` and `tri_table` of `lookup_tables.h` are a parameter
  `T : LookupTables` of the functions that read them; `lookup_tables` is the
  standard published pair of tables.
-/

namespace MarchingCubesDemo

/-! ## Data model (`marching_cubes.h`) -/

/-- A 3D point (`struct Point`). -/
structure Point (F : Type) where
  x : F
  y : F
  z : F

/-- The GLM vector type `glm::vec3`. -/
structure vec3 (F : Type) where
  x : F
  y : F
  z : F

/-- A grid cell (`struct GridCell`): `Point bounds[8]`. -/
structure GridCell (F : Type) where
  bounds : Fin 8 → Point F

/-- A vertex for rendering (`struct Vertex`): a position and a normal. -/
structure Vertex (F : Type) where
  position : vec3 F
  normal : vec3 F

/-- The private fields of `class MarchingCubes`. -/
structure MarchingCubes (F : Type) where
  num_x_steps : Int
  num_y_steps : Int
  num_z_steps : Int
  resolution : F
  iso_value : F
  start_pt : Point F

/-- The two arrays declared by `lookup_tables.h`: `edge_table[256]` and
`tri_table[256][16]`. -/
structure LookupTables where
  edge_table : List Nat
  tri_table : List (List Int)

/-! ## GLM operations -/

namespace vec3

variable {F : Type} [Field F]

/-- Componentwise difference, `operator-` of `glm::vec3`. -/
def sub (a b : vec3 F) : vec3 F := ⟨a.x - b.x, a.y - b.y, a.z - b.z⟩

/-- The scalar product `glm::dot`. -/
def dot (a b : vec3 F) : F := a.x * b.x + a.y * b.y + a.z * b.z

/-- The vector product `glm::cross`. -/
def cross (a b : vec3 F) : vec3 F :=
  ⟨a.y * b.z - b.y * a.z, a.z * b.x - b.z * a.x, a.x * b.y - b.x * a.y⟩

/-- The scaling `v * s` of `glm::vec3`. -/
def scale (v : vec3 F) (s : F) : vec3 F := ⟨v.x * s, v.y * s, v.z * s⟩

/-- The GLM function `glm::inversesqrt`, `1 / sqrt x`. -/
def inversesqrt (sqrt : F → F) (x : F) : F := 1 / sqrt x

/-- The GLM function `glm::normalize`, `v * inversesqrt(dot(v, v))`. -/
def normalize (sqrt : F → F) (v : vec3 F) : vec3 F :=
  scale v (inversesqrt sqrt (dot v v))

end vec3

/-! ## Loops -/

/-- The loop `for (int i = 0; i < n; ++i) body(i)` on a state of type `σ`. -/
def forLoop {σ : Type} (n : Nat) (body : Nat → σ → σ) (s : σ) : σ :=
  (List.range n).foldl (fun acc i => body i acc) s

/-! ## `marching_cubes.cpp` -/

section Code

variable {F : Type} [LinearOrderedField F]

/-- The constructor `MarchingCubes::MarchingCubes(min_pt, max_pt, _resolution)`.
The value of `ceil` is integral, so its conversion to `int` keeps it. -/
def MarchingCubes.construct [FloorRing F] (min_pt max_pt : Point F) (_resolution : F) :
    MarchingCubes F where
  num_x_steps := Int.ceil ((max_pt.x - min_pt.x) / _resolution)
  num_y_steps := Int.ceil ((max_pt.y - min_pt.y) / _resolution)
  num_z_steps := Int.ceil ((max_pt.z - min_pt.z) / _resolution)
  start_pt := min_pt
  resolution := _resolution
  iso_value := 0

/-- The scalar field `MarchingCubes::SphereFuntion`: negative inside the unit
sphere, positive outside, zero on it. -/
def MarchingCubes.SphereFuntion (x y z : F) : F :=
  x * x + y * y + z * z - 1

/-- The table `int edges[12][2]` of `PolygonizeCube`: the two corners of each
cube edge. -/
def edges : List (Fin 8 × Fin 8) :=
  [(0, 1), (1, 2), (2, 3), (3, 0),
   (4, 5), (5, 6), (6, 7), (7, 4),
   (0, 4), (1, 5), (2, 6), (3, 7)]

/-- Lines 70-76 of `PolygonizeCube`: the loop that sets bit `i` of
`edge_table_lookup` when `values[i] < iso_value`. -/
def edge_table_lookup (iso_value : F) (values : Fin 8 → F) : Nat :=
  (List.finRange 8).foldl
    (fun acc i => if values i < iso_value then acc ||| (0x01 <<< i.val) else acc) 0

/-- The test `edge_table[edge_table_lookup] & (0x01 << i)` of line 100. -/
def edgeFlagged (T : LookupTables) (lookup i : Nat) : Bool :=
  (T.edge_table.getD lookup 0) &&& (0x01 <<< i) != 0

/-- Lines 102-108 of `PolygonizeCube`: the point on edge `i` at the fraction
`lerp = (iso_value - values[index_1]) / delta` between its two corners. -/
def interpolate (iso_value : F) (cube : GridCell F) (values : Fin 8 → F) (i : Nat) : Point F :=
  let index_1 := (edges.getD i (0, 0)).1
  let index_2 := (edges.getD i (0, 0)).2
  let delta := values index_2 - values index_1
  let lerp := (iso_value - values index_1) / delta
  ⟨(cube.bounds index_1).x + lerp * ((cube.bounds index_2).x - (cube.bounds index_1).x),
   (cube.bounds index_1).y + lerp * ((cube.bounds index_2).y - (cube.bounds index_1).y),
   (cube.bounds index_1).z + lerp * ((cube.bounds index_2).z - (cube.bounds index_1).z)⟩

/-- Lines 93-110 of `PolygonizeCube`: `Point vertex_edges[12]`, default
constructed at the origin, then written at every flagged edge. -/
def vertex_edges (T : LookupTables) (iso_value : F) (cube : GridCell F) (values : Fin 8 → F)
    (lookup : Nat) : List (Point F) :=
  forLoop 12
    (fun i ve => if edgeFlagged T lookup i then ve.set i (interpolate iso_value cube values i) else ve)
    (List.replicate 12 ⟨0, 0, 0⟩)

/-- The conversion `glm::vec3(p.x, p.y, p.z)` of lines 128-130. -/
def Point.toVec3 (p : Point F) : vec3 F := ⟨p.x, p.y, p.z⟩

/-- Lines 127-142 of `PolygonizeCube`: the three vertices of one triangle,
all with the normal `normalize(cross(p2 - p1, p3 - p1))`. -/
def triangle (sqrt : F → F) (ve : List (Point F)) (index_1 index_2 index_3 : Int) :
    List (Vertex F) :=
  let p1 := (ve.getD index_1.toNat ⟨0, 0, 0⟩).toVec3
  let p2 := (ve.getD index_2.toNat ⟨0, 0, 0⟩).toVec3
  let p3 := (ve.getD index_3.toNat ⟨0, 0, 0⟩).toVec3
  let to_p2 := vec3.sub p2 p1
  let to_p3 := vec3.sub p3 p1
  let normal := vec3.normalize sqrt (vec3.cross to_p2 to_p3)
  [⟨p1, normal⟩, ⟨p2, normal⟩, ⟨p3, normal⟩]

/-- Lines 117-147 of `PolygonizeCube`: the loop over the triangles `i` of
one row of `tri_table`, left at the first triple with a `-1`. -/
def triangleLoop (sqrt : F → F) (row : List Int) (ve : List (Point F)) :
    List Nat → List (Vertex F) → List (Vertex F)
  | [], triangle_verts => triangle_verts
  | i :: rest, triangle_verts =>
    let index_1 := row.getD (3 * i) (-1)
    let index_2 := row.getD (3 * i + 1) (-1)
    let index_3 := row.getD (3 * i + 2) (-1)
    if index_1 = -1 ∨ index_2 = -1 ∨ index_3 = -1 then
      triangle_verts
    else
      triangleLoop sqrt row ve rest (triangle_verts ++ triangle sqrt ve index_1 index_2 index_3)

/-- Lines 69-147 of `PolygonizeCube`: everything after the sampling of the
eight corner values. -/
def PolygonizeCubeValues (T : LookupTables) (sqrt : F → F) (iso_value : F) (cube : GridCell F)
    (values : Fin 8 → F) (triangle_verts : List (Vertex F)) : List (Vertex F) :=
  let lookup := edge_table_lookup iso_value values
  if T.edge_table.getD lookup 0 = 0 then
    triangle_verts
  else
    triangleLoop sqrt (T.tri_table.getD lookup []) (vertex_edges T iso_value cube values lookup)
      (List.range 5) triangle_verts

/-- Lines 59-67 of `PolygonizeCube`: the field sampled at the eight corners. -/
def MarchingCubes.sample (cube : GridCell F) : Fin 8 → F :=
  fun i => MarchingCubes.SphereFuntion (cube.bounds i).x (cube.bounds i).y (cube.bounds i).z

/-- The method `MarchingCubes::PolygonizeCube(cube, triangle_verts)`. -/
def MarchingCubes.PolygonizeCube (T : LookupTables) (sqrt : F → F) (mc : MarchingCubes F)
    (cube : GridCell F) (triangle_verts : List (Vertex F)) : List (Vertex F) :=
  PolygonizeCubeValues T sqrt mc.iso_value cube (MarchingCubes.sample cube) triangle_verts

/-- Lines 34-43 of `Polygonize`: the cube of the cell with index `(x, y, z)`. -/
def MarchingCubes.cell (mc : MarchingCubes F) (x y z : Nat) : GridCell F where
  bounds := ![
    ⟨mc.start_pt.x + mc.resolution * x, mc.start_pt.y + mc.resolution * y,
      mc.start_pt.z + mc.resolution * z⟩,
    ⟨mc.start_pt.x + mc.resolution * (x + 1 : Nat), mc.start_pt.y + mc.resolution * y,
      mc.start_pt.z + mc.resolution * z⟩,
    ⟨mc.start_pt.x + mc.resolution * (x + 1 : Nat), mc.start_pt.y + mc.resolution * (y + 1 : Nat),
      mc.start_pt.z + mc.resolution * z⟩,
    ⟨mc.start_pt.x + mc.resolution * x, mc.start_pt.y + mc.resolution * (y + 1 : Nat),
      mc.start_pt.z + mc.resolution * z⟩,
    ⟨mc.start_pt.x + mc.resolution * x, mc.start_pt.y + mc.resolution * y,
      mc.start_pt.z + mc.resolution * (z + 1 : Nat)⟩,
    ⟨mc.start_pt.x + mc.resolution * (x + 1 : Nat), mc.start_pt.y + mc.resolution * y,
      mc.start_pt.z + mc.resolution * (z + 1 : Nat)⟩,
    ⟨mc.start_pt.x + mc.resolution * (x + 1 : Nat), mc.start_pt.y + mc.resolution * (y + 1 : Nat),
      mc.start_pt.z + mc.resolution * (z + 1 : Nat)⟩,
    ⟨mc.start_pt.x + mc.resolution * x, mc.start_pt.y + mc.resolution * (y + 1 : Nat),
      mc.start_pt.z + mc.resolution * (z + 1 : Nat)⟩]

/-- The method `MarchingCubes::Polygonize(triangle_verts)`: three nested
counting loops, `z` outermost, each running to the stored step count. -/
def MarchingCubes.Polygonize (T : LookupTables) (sqrt : F → F) (mc : MarchingCubes F)
    (triangle_verts : List (Vertex F)) : List (Vertex F) :=
  forLoop mc.num_z_steps.toNat (fun z tv =>
    forLoop mc.num_y_steps.toNat (fun y tv =>
      forLoop mc.num_x_steps.toNat (fun x tv =>
        MarchingCubes.PolygonizeCube T sqrt mc (mc.cell x y z) tv) tv) tv) triangle_verts

/-- The statement `triangle_verts.push_back(v)` on the pair of the object and
the vector: the only statement of `Polygonize` and `PolygonizeCube` that
writes to anything but a local variable. -/
def push_back (v : Vertex F) (s : MarchingCubes F × List (Vertex F)) :
    MarchingCubes F × List (Vertex F) :=
  (s.1, s.2 ++ [v])

/-- The loop `for (int i = 0; i < bound; ++i) body(i)` whose bound is a
member of the object: the test reads it from the current state before every
iteration. The first argument limits the number of iterations. -/
def forLoopSt {σ : Type} (bound : σ → Int) (body : Nat → σ → σ) : Nat → Nat → σ → σ
  | 0, _, s => s
  | fuel + 1, i, s =>
    if (i : Int) < bound s then forLoopSt bound body fuel (i + 1) (body i s) else s

/-- Lines 117-147 of `PolygonizeCube` on the pair of the object and the
vector: the triangle loop with its three `push_back` statements. -/
def triangleLoopSt (sqrt : F → F) (row : List Int) (ve : List (Point F)) :
    List Nat → MarchingCubes F × List (Vertex F) → MarchingCubes F × List (Vertex F)
  | [], s => s
  | i :: rest, s =>
    let index_1 := row.getD (3 * i) (-1)
    let index_2 := row.getD (3 * i + 1) (-1)
    let index_3 := row.getD (3 * i + 2) (-1)
    if index_1 = -1 ∨ index_2 = -1 ∨ index_3 = -1 then
      s
    else
      triangleLoopSt sqrt row ve rest
        ((triangle sqrt ve index_1 index_2 index_3).foldl (fun t v => push_back v t) s)

/-- The method `PolygonizeCube` on the pair of the object and the vector:
`iso_value` is read from the object of the current state. -/
def PolygonizeCubeSt (T : LookupTables) (sqrt : F → F) (cube : GridCell F)
    (s : MarchingCubes F × List (Vertex F)) : MarchingCubes F × List (Vertex F) :=
  let values := MarchingCubes.sample cube
  let lookup := edge_table_lookup s.1.iso_value values
  if T.edge_table.getD lookup 0 = 0 then
    s
  else
    triangleLoopSt sqrt (T.tri_table.getD lookup [])
      (vertex_edges T s.1.iso_value cube values lookup) (List.range 5) s

/-- The method `Polygonize` on the pair of the object and the vector: the
three loop tests read `num_z_steps`, `num_y_steps`, `num_x_steps` and the cube
is built from `start_pt` and `resolution` of the object of the current state.
Each loop runs at most `fuel` iterations. -/
def PolygonizeSt (T : LookupTables) (sqrt : F → F) (fuel : Nat)
    (s : MarchingCubes F × List (Vertex F)) : MarchingCubes F × List (Vertex F) :=
  forLoopSt (fun s => s.1.num_z_steps) (fun z s =>
    forLoopSt (fun s => s.1.num_y_steps) (fun y s =>
      forLoopSt (fun s => s.1.num_x_steps) (fun x s =>
        PolygonizeCubeSt T sqrt (s.1.cell x y z) s) fuel 0 s) fuel 0 s) fuel 0 s

/-- The outcome of a constructor call: the constructor has no `throw` and no
test of its arguments, so the call always completes with the object. -/
def MarchingCubes.constructOutcome [FloorRing F] (min_pt max_pt : Point F) (_resolution : F) :
    Except String (MarchingCubes F) :=
  Except.ok (MarchingCubes.construct min_pt max_pt _resolution)

end Code

/-! ## The lookup tables -/

/-- Modelled from the spec: the array `edge_table[256]` of `lookup_tables.h`, the
standard published table with one bit per cube edge crossed by the surface
for each of the 256 corner configurations. -/
def edge_table : List Nat := [
  0x000, 0x109, 0x203, 0x30a, 0x406, 0x50f, 0x605, 0x70c,
  0x80c, 0x905, 0xa0f, 0xb06, 0xc0a, 0xd03, 0xe09, 0xf00,
  0x190, 0x099, 0x393, 0x29a, 0x596, 0x49f, 0x795, 0x69c,
  0x99c, 0x895, 0xb9f, 0xa96, 0xd9a, 0xc93, 0xf99, 0xe90,
  0x230, 0x339, 0x033, 0x13a, 0x636, 0x73f, 0x435, 0x53c,
  0xa3c, 0xb35, 0x83f, 0x936, 0xe3a, 0xf33, 0xc39, 0xd30,
  0x3a0, 0x2a9, 0x1a3, 0x0aa, 0x7a6, 0x6af, 0x5a5, 0x4ac,
  0xbac, 0xaa5, 0x9af, 0x8a6, 0xfaa, 0xea3, 0xda9, 0xca0,
  0x460, 0x569, 0x663, 0x76a, 0x066, 0x16f, 0x265, 0x36c,
  0xc6c, 0xd65, 0xe6f, 0xf66, 0x86a, 0x963, 0xa69, 0xb60,
  0x5f0, 0x4f9, 0x7f3, 0x6fa, 0x1f6, 0x0ff, 0x3f5, 0x2fc,
  0xdfc, 0xcf5, 0xfff, 0xef6, 0x9fa, 0x8f3, 0xbf9, 0xaf0,
  0x650, 0x759, 0x453, 0x55a, 0x256, 0x35f, 0x055, 0x15c,
  0xe5c, 0xf55, 0xc5f, 0xd56, 0xa5a, 0xb53, 0x859, 0x950,
  0x7c0, 0x6c9, 0x5c3, 0x4ca, 0x3c6, 0x2cf, 0x1c5, 0x0cc,
  0xfcc, 0xec5, 0xdcf, 0xcc6, 0xbca, 0xac3, 0x9c9, 0x8c0,
  0x8c0, 0x9c9, 0xac3, 0xbca, 0xcc6, 0xdcf, 0xec5, 0xfcc,
  0x0cc, 0x1c5, 0x2cf, 0x3c6, 0x4ca, 0x5c3, 0x6c9, 0x7c0,
  0x950, 0x859, 0xb53, 0xa5a, 0xd56, 0xc5f, 0xf55, 0xe5c,
  0x15c, 0x055, 0x35f, 0x256, 0x55a, 0x453, 0x759, 0x650,
  0xaf0, 0xbf9, 0x8f3, 0x9fa, 0xef6, 0xfff, 0xcf5, 0xdfc,
  0x2fc, 0x3f5, 0x0ff, 0x1f6, 0x6fa, 0x7f3, 0x4f9, 0x5f0,
  0xb60, 0xa69, 0x963, 0x86a, 0xf66, 0xe6f, 0xd65, 0xc6c,
  0x36c, 0x265, 0x16f, 0x066, 0x76a, 0x663, 0x569, 0x460,
  0xca0, 0xda9, 0xea3, 0xfaa, 0x8a6, 0x9af, 0xaa5, 0xbac,
  0x4ac, 0x5a5, 0x6af, 0x7a6, 0x0aa, 0x1a3, 0x2a9, 0x3a0,
  0xd30, 0xc39, 0xf33, 0xe3a, 0x936, 0x83f, 0xb35, 0xa3c,
  0x53c, 0x435, 0x73f, 0x636, 0x13a, 0x033, 0x339, 0x230,
  0xe90, 0xf99, 0xc93, 0xd9a, 0xa96, 0xb9f, 0x895, 0x99c,
  0x69c, 0x795, 0x49f, 0x596, 0x29a, 0x393, 0x099, 0x190,
  0xf00, 0xe09, 0xd03, 0xc0a, 0xb06, 0xa0f, 0x905, 0x80c,
  0x70c, 0x605, 0x50f, 0x406, 0x30a, 0x203, 0x109, 0x000]

/-- Modelled from the spec: rows 0 to 31 of `tri_table`. -/
def tri_table_0 : List (List Int) := [
  [-1, -1, -1, -1, -1, -1, -1, -1, -1, -1, -1, -1, -1, -1, -1, -1],
  [0, 8, 3, -1, -1, -1, -1, -1, -1, -1, -1, -1, -1, -1, -1, -1],
  [0, 1, 9, -1, -1, -1, -1, -1, -1, -1, -1, -1, -1, -1, -1, -1],
  [1, 8, 3, 9, 8, 1, -1, -1, -1, -1, -1, -1, -1, -1, -1, -1],
  [1, 2, 10, -1, -1, -1, -1, -1, -1, -1, -1, -1, -1, -1, -1, -1],
  [0, 8, 3, 1, 2, 10, -1, -1, -1, -1, -1, -1, -1, -1, -1, -1],
  [9, 2, 10, 0, 2, 9, -1, -1, -1, -1, -1, -1, -1, -1, -1, -1],
  [2, 8, 3, 2, 10, 8, 10, 9, 8, -1, -1, -1, -1, -1, -1, -1],
  [3, 11, 2, -1, -1, -1, -1, -1, -1, -1, -1, -1, -1, -1, -1, -1],
  [0, 11, 2, 8, 11, 0, -1, -1, -1, -1, -1, -1, -1, -1, -1, -1],
  [1, 9, 0, 2, 3, 11, -1, -1, -1, -1, -1, -1, -1, -1, -1, -1],
  [1, 11, 2, 1, 9, 11, 9, 8, 11, -1, -1, -1, -1, -1, -1, -1],
  [3, 10, 1, 11, 10, 3, -1, -1, -1, -1, -1, -1, -1, -1, -1, -1],
  [0, 10, 1, 0, 8, 10, 8, 11, 10, -1, -1, -1, -1, -1, -1, -1],
  [3, 9, 0, 3, 11, 9, 11, 10, 9, -1, -1, -1, -1, -1, -1, -1],
  [9, 8, 10, 10, 8, 11, -1, -1, -1, -1, -1, -1, -1, -1, -1, -1],
  [4, 7, 8, -1, -1, -1, -1, -1, -1, -1, -1, -1, -1, -1, -1, -1],
  [4, 3, 0, 7, 3, 4, -1, -1, -1, -1, -1, -1, -1, -1, -1, -1],
  [0, 1, 9, 8, 4, 7, -1, -1, -1, -1, -1, -1, -1, -1, -1, -1],
  [4, 1, 9, 4, 7, 1, 7, 3, 1, -1, -1, -1, -1, -1, -1, -1],
  [1, 2, 10, 8, 4, 7, -1, -1, -1, -1, -1, -1, -1, -1, -1, -1],
  [3, 4, 7, 3, 0, 4, 1, 2, 10, -1, -1, -1, -1, -1, -1, -1],
  [9, 2, 10, 9, 0, 2, 8, 4, 7, -1, -1, -1, -1, -1, -1, -1],
  [2, 10, 9, 2, 9, 7, 2, 7, 3, 7, 9, 4, -1, -1, -1, -1],
  [8, 4, 7, 3, 11, 2, -1, -1, -1, -1, -1, -1, -1, -1, -1, -1],
  [11, 4, 7, 11, 2, 4, 2, 0, 4, -1, -1, -1, -1, -1, -1, -1],
  [9, 0, 1, 8, 4, 7, 2, 3, 11, -1, -1, -1, -1, -1, -1, -1],
  [4, 7, 11, 9, 4, 11, 9, 11, 2, 9, 2, 1, -1, -1, -1, -1],
  [3, 10, 1, 3, 11, 10, 7, 8, 4, -1, -1, -1, -1, -1, -1, -1],
  [1, 11, 10, 1, 4, 11, 1, 0, 4, 7, 11, 4, -1, -1, -1, -1],
  [4, 7, 8, 9, 0, 11, 9, 11, 10, 11, 0, 3, -1, -1, -1, -1],
  [4, 7, 11, 4, 11, 9, 9, 11, 10, -1, -1, -1, -1, -1, -1, -1]]

/-- Modelled from the spec: rows 32 to 63 of `tri_table`. -/
def tri_table_1 : List (List Int) := [
  [9, 5, 4, -1, -1, -1, -1, -1, -1, -1, -1, -1, -1, -1, -1, -1],
  [9, 5, 4, 0, 8, 3, -1, -1, -1, -1, -1, -1, -1, -1, -1, -1],
  [0, 5, 4, 1, 5, 0, -1, -1, -1, -1, -1, -1, -1, -1, -1, -1],
  [8, 5, 4, 8, 3, 5, 3, 1, 5, -1, -1, -1, -1, -1, -1, -1],
  [1, 2, 10, 9, 5, 4, -1, -1, -1, -1, -1, -1, -1, -1, -1, -1],
  [3, 0, 8, 1, 2, 10, 4, 9, 5, -1, -1, -1, -1, -1, -1, -1],
  [5, 2, 10, 5, 4, 2, 4, 0, 2, -1, -1, -1, -1, -1, -1, -1],
  [2, 10, 5, 3, 2, 5, 3, 5, 4, 3, 4, 8, -1, -1, -1, -1],
  [9, 5, 4, 2, 3, 11, -1, -1, -1, -1, -1, -1, -1, -1, -1, -1],
  [0, 11, 2, 0, 8, 11, 4, 9, 5, -1, -1, -1, -1, -1, -1, -1],
  [0, 5, 4, 0, 1, 5, 2, 3, 11, -1, -1, -1, -1, -1, -1, -1],
  [2, 1, 5, 2, 5, 8, 2, 8, 11, 4, 8, 5, -1, -1, -1, -1],
  [10, 3, 11, 10, 1, 3, 9, 5, 4, -1, -1, -1, -1, -1, -1, -1],
  [4, 9, 5, 0, 8, 1, 8, 10, 1, 8, 11, 10, -1, -1, -1, -1],
  [5, 4, 0, 5, 0, 11, 5, 11, 10, 11, 0, 3, -1, -1, -1, -1],
  [5, 4, 8, 5, 8, 10, 10, 8, 11, -1, -1, -1, -1, -1, -1, -1],
  [9, 7, 8, 5, 7, 9, -1, -1, -1, -1, -1, -1, -1, -1, -1, -1],
  [9, 3, 0, 9, 5, 3, 5, 7, 3, -1, -1, -1, -1, -1, -1, -1],
  [0, 7, 8, 0, 1, 7, 1, 5, 7, -1, -1, -1, -1, -1, -1, -1],
  [1, 5, 3, 3, 5, 7, -1, -1, -1, -1, -1, -1, -1, -1, -1, -1],
  [9, 7, 8, 9, 5, 7, 10, 1, 2, -1, -1, -1, -1, -1, -1, -1],
  [10, 1, 2, 9, 5, 0, 5, 3, 0, 5, 7, 3, -1, -1, -1, -1],
  [8, 0, 2, 8, 2, 5, 8, 5, 7, 10, 5, 2, -1, -1, -1, -1],
  [2, 10, 5, 2, 5, 3, 3, 5, 7, -1, -1, -1, -1, -1, -1, -1],
  [7, 9, 5, 7, 8, 9, 3, 11, 2, -1, -1, -1, -1, -1, -1, -1],
  [9, 5, 7, 9, 7, 2, 9, 2, 0, 2, 7, 11, -1, -1, -1, -1],
  [2, 3, 11, 0, 1, 8, 1, 7, 8, 1, 5, 7, -1, -1, -1, -1],
  [11, 2, 1, 11, 1, 7, 7, 1, 5, -1, -1, -1, -1, -1, -1, -1],
  [9, 5, 8, 8, 5, 7, 10, 1, 3, 10, 3, 11, -1, -1, -1, -1],
  [5, 7, 0, 5, 0, 9, 7, 11, 0, 1, 0, 10, 11, 10, 0, -1],
  [11, 10, 0, 11, 0, 3, 10, 5, 0, 8, 0, 7, 5, 7, 0, -1],
  [11, 10, 5, 7, 11, 5, -1, -1, -1, -1, -1, -1, -1, -1, -1, -1]]

/-- Modelled from the spec: rows 64 to 95 of `tri_table`. -/
def tri_table_2 : List (List Int) := [
  [10, 6, 5, -1, -1, -1, -1, -1, -1, -1, -1, -1, -1, -1, -1, -1],
  [0, 8, 3, 5, 10, 6, -1, -1, -1, -1, -1, -1, -1, -1, -1, -1],
  [9, 0, 1, 5, 10, 6, -1, -1, -1, -1, -1, -1, -1, -1, -1, -1],
  [1, 8, 3, 1, 9, 8, 5, 10, 6, -1, -1, -1, -1, -1, -1, -1],
  [1, 6, 5, 2, 6, 1, -1, -1, -1, -1, -1, -1, -1, -1, -1, -1],
  [1, 6, 5, 1, 2, 6, 3, 0, 8, -1, -1, -1, -1, -1, -1, -1],
  [9, 6, 5, 9, 0, 6, 0, 2, 6, -1, -1, -1, -1, -1, -1, -1],
  [5, 9, 8, 5, 8, 2, 5, 2, 6, 3, 2, 8, -1, -1, -1, -1],
  [2, 3, 11, 10, 6, 5, -1, -1, -1, -1, -1, -1, -1, -1, -1, -1],
  [11, 0, 8, 11, 2, 0, 10, 6, 5, -1, -1, -1, -1, -1, -1, -1],
  [0, 1, 9, 2, 3, 11, 5, 10, 6, -1, -1, -1, -1, -1, -1, -1],
  [5, 10, 6, 1, 9, 2, 9, 11, 2, 9, 8, 11, -1, -1, -1, -1],
  [6, 3, 11, 6, 5, 3, 5, 1, 3, -1, -1, -1, -1, -1, -1, -1],
  [0, 8, 11, 0, 11, 5, 0, 5, 1, 5, 11, 6, -1, -1, -1, -1],
  [3, 11, 6, 0, 3, 6, 0, 6, 5, 0, 5, 9, -1, -1, -1, -1],
  [6, 5, 9, 6, 9, 11, 11, 9, 8, -1, -1, -1, -1, -1, -1, -1],
  [5, 10, 6, 4, 7, 8, -1, -1, -1, -1, -1, -1, -1, -1, -1, -1],
  [4, 3, 0, 4, 7, 3, 6, 5, 10, -1, -1, -1, -1, -1, -1, -1],
  [1, 9, 0, 5, 10, 6, 8, 4, 7, -1, -1, -1, -1, -1, -1, -1],
  [10, 6, 5, 1, 9, 7, 1, 7, 3, 7, 9, 4, -1, -1, -1, -1],
  [6, 1, 2, 6, 5, 1, 4, 7, 8, -1, -1, -1, -1, -1, -1, -1],
  [1, 2, 5, 5, 2, 6, 3, 0, 4, 3, 4, 7, -1, -1, -1, -1],
  [8, 4, 7, 9, 0, 5, 0, 6, 5, 0, 2, 6, -1, -1, -1, -1],
  [7, 3, 9, 7, 9, 4, 3, 2, 9, 5, 9, 6, 2, 6, 9, -1],
  [3, 11, 2, 7, 8, 4, 10, 6, 5, -1, -1, -1, -1, -1, -1, -1],
  [5, 10, 6, 4, 7, 2, 4, 2, 0, 2, 7, 11, -1, -1, -1, -1],
  [0, 1, 9, 4, 7, 8, 2, 3, 11, 5, 10, 6, -1, -1, -1, -1],
  [9, 2, 1, 9, 11, 2, 9, 4, 11, 7, 11, 4, 5, 10, 6, -1],
  [8, 4, 7, 3, 11, 5, 3, 5, 1, 5, 11, 6, -1, -1, -1, -1],
  [5, 1, 11, 5, 11, 6, 1, 0, 11, 7, 11, 4, 0, 4, 11, -1],
  [0, 5, 9, 0, 6, 5, 0, 3, 6, 11, 6, 3, 8, 4, 7, -1],
  [6, 5, 9, 6, 9, 11, 4, 7, 9, 7, 11, 9, -1, -1, -1, -1]]

/-- Modelled from the spec: rows 96 to 127 of `tri_table`. -/
def tri_table_3 : List (List Int) := [
  [10, 4, 9, 6, 4, 10, -1, -1, -1, -1, -1, -1, -1, -1, -1, -1],
  [4, 10, 6, 4, 9, 10, 0, 8, 3, -1, -1, -1, -1, -1, -1, -1],
  [10, 0, 1, 10, 6, 0, 6, 4, 0, -1, -1, -1, -1, -1, -1, -1],
  [8, 3, 1, 8, 1, 6, 8, 6, 4, 6, 1, 10, -1, -1, -1, -1],
  [1, 4, 9, 1, 2, 4, 2, 6, 4, -1, -1, -1, -1, -1, -1, -1],
  [3, 0, 8, 1, 2, 9, 2, 4, 9, 2, 6, 4, -1, -1, -1, -1],
  [0, 2, 4, 4, 2, 6, -1, -1, -1, -1, -1, -1, -1, -1, -1, -1],
  [8, 3, 2, 8, 2, 4, 4, 2, 6, -1, -1, -1, -1, -1, -1, -1],
  [10, 4, 9, 10, 6, 4, 11, 2, 3, -1, -1, -1, -1, -1, -1, -1],
  [0, 8, 2, 2, 8, 11, 4, 9, 10, 4, 10, 6, -1, -1, -1, -1],
  [3, 11, 2, 0, 1, 6, 0, 6, 4, 6, 1, 10, -1, -1, -1, -1],
  [6, 4, 1, 6, 1, 10, 4, 8, 1, 2, 1, 11, 8, 11, 1, -1],
  [9, 6, 4, 9, 3, 6, 9, 1, 3, 11, 6, 3, -1, -1, -1, -1],
  [8, 11, 1, 8, 1, 0, 11, 6, 1, 9, 1, 4, 6, 4, 1, -1],
  [3, 11, 6, 3, 6, 0, 0, 6, 4, -1, -1, -1, -1, -1, -1, -1],
  [6, 4, 8, 11, 6, 8, -1, -1, -1, -1, -1, -1, -1, -1, -1, -1],
  [7, 10, 6, 7, 8, 10, 8, 9, 10, -1, -1, -1, -1, -1, -1, -1],
  [0, 7, 3, 0, 10, 7, 0, 9, 10, 6, 7, 10, -1, -1, -1, -1],
  [10, 6, 7, 1, 10, 7, 1, 7, 8, 1, 8, 0, -1, -1, -1, -1],
  [10, 6, 7, 10, 7, 1, 1, 7, 3, -1, -1, -1, -1, -1, -1, -1],
  [1, 2, 6, 1, 6, 8, 1, 8, 9, 8, 6, 7, -1, -1, -1, -1],
  [2, 6, 9, 2, 9, 1, 6, 7, 9, 0, 9, 3, 7, 3, 9, -1],
  [7, 8, 0, 7, 0, 6, 6, 0, 2, -1, -1, -1, -1, -1, -1, -1],
  [7, 3, 2, 6, 7, 2, -1, -1, -1, -1, -1, -1, -1, -1, -1, -1],
  [2, 3, 11, 10, 6, 8, 10, 8, 9, 8, 6, 7, -1, -1, -1, -1],
  [2, 0, 7, 2, 7, 11, 0, 9, 7, 6, 7, 10, 9, 10, 7, -1],
  [1, 8, 0, 1, 7, 8, 1, 10, 7, 6, 7, 10, 2, 3, 11, -1],
  [11, 2, 1, 11, 1, 7, 10, 6, 1, 6, 7, 1, -1, -1, -1, -1],
  [8, 9, 6, 8, 6, 7, 9, 1, 6, 11, 6, 3, 1, 3, 6, -1],
  [0, 9, 1, 11, 6, 7, -1, -1, -1, -1, -1, -1, -1, -1, -1, -1],
  [7, 8, 0, 7, 0, 6, 3, 11, 0, 11, 6, 0, -1, -1, -1, -1],
  [7, 11, 6, -1, -1, -1, -1, -1, -1, -1, -1, -1, -1, -1, -1, -1]]

/-- Modelled from the spec: rows 128 to 159 of `tri_table`. -/
def tri_table_4 : List (List Int) := [
  [7, 6, 11, -1, -1, -1, -1, -1, -1, -1, -1, -1, -1, -1, -1, -1],
  [3, 0, 8, 11, 7, 6, -1, -1, -1, -1, -1, -1, -1, -1, -1, -1],
  [0, 1, 9, 11, 7, 6, -1, -1, -1, -1, -1, -1, -1, -1, -1, -1],
  [8, 1, 9, 8, 3, 1, 11, 7, 6, -1, -1, -1, -1, -1, -1, -1],
  [10, 1, 2, 6, 11, 7, -1, -1, -1, -1, -1, -1, -1, -1, -1, -1],
  [1, 2, 10, 3, 0, 8, 6, 11, 7, -1, -1, -1, -1, -1, -1, -1],
  [2, 9, 0, 2, 10, 9, 6, 11, 7, -1, -1, -1, -1, -1, -1, -1],
  [6, 11, 7, 2, 10, 3, 10, 8, 3, 10, 9, 8, -1, -1, -1, -1],
  [7, 2, 3, 6, 2, 7, -1, -1, -1, -1, -1, -1, -1, -1, -1, -1],
  [7, 0, 8, 7, 6, 0, 6, 2, 0, -1, -1, -1, -1, -1, -1, -1],
  [2, 7, 6, 2, 3, 7, 0, 1, 9, -1, -1, -1, -1, -1, -1, -1],
  [1, 6, 2, 1, 8, 6, 1, 9, 8, 8, 7, 6, -1, -1, -1, -1],
  [10, 7, 6, 10, 1, 7, 1, 3, 7, -1, -1, -1, -1, -1, -1, -1],
  [10, 7, 6, 1, 7, 10, 1, 8, 7, 1, 0, 8, -1, -1, -1, -1],
  [0, 3, 7, 0, 7, 10, 0, 10, 9, 6, 10, 7, -1, -1, -1, -1],
  [7, 6, 10, 7, 10, 8, 8, 10, 9, -1, -1, -1, -1, -1, -1, -1],
  [6, 8, 4, 11, 8, 6, -1, -1, -1, -1, -1, -1, -1, -1, -1, -1],
  [3, 6, 11, 3, 0, 6, 0, 4, 6, -1, -1, -1, -1, -1, -1, -1],
  [8, 6, 11, 8, 4, 6, 9, 0, 1, -1, -1, -1, -1, -1, -1, -1],
  [9, 4, 6, 9, 6, 3, 9, 3, 1, 11, 3, 6, -1, -1, -1, -1],
  [6, 8, 4, 6, 11, 8, 2, 10, 1, -1, -1, -1, -1, -1, -1, -1],
  [1, 2, 10, 3, 0, 11, 0, 6, 11, 0, 4, 6, -1, -1, -1, -1],
  [4, 11, 8, 4, 6, 11, 0, 2, 9, 2, 10, 9, -1, -1, -1, -1],
  [10, 9, 3, 10, 3, 2, 9, 4, 3, 11, 3, 6, 4, 6, 3, -1],
  [8, 2, 3, 8, 4, 2, 4, 6, 2, -1, -1, -1, -1, -1, -1, -1],
  [0, 4, 2, 4, 6, 2, -1, -1, -1, -1, -1, -1, -1, -1, -1, -1],
  [1, 9, 0, 2, 3, 4, 2, 4, 6, 4, 3, 8, -1, -1, -1, -1],
  [1, 9, 4, 1, 4, 2, 2, 4, 6, -1, -1, -1, -1, -1, -1, -1],
  [8, 1, 3, 8, 6, 1, 8, 4, 6, 6, 10, 1, -1, -1, -1, -1],
  [10, 1, 0, 10, 0, 6, 6, 0, 4, -1, -1, -1, -1, -1, -1, -1],
  [4, 6, 3, 4, 3, 8, 6, 10, 3, 0, 3, 9, 10, 9, 3, -1],
  [10, 9, 4, 6, 10, 4, -1, -1, -1, -1, -1, -1, -1, -1, -1, -1]]

/-- Modelled from the spec: rows 160 to 191 of `tri_table`. -/
def tri_table_5 : List (List Int) := [
  [4, 9, 5, 7, 6, 11, -1, -1, -1, -1, -1, -1, -1, -1, -1, -1],
  [0, 8, 3, 4, 9, 5, 11, 7, 6, -1, -1, -1, -1, -1, -1, -1],
  [5, 0, 1, 5, 4, 0, 7, 6, 11, -1, -1, -1, -1, -1, -1, -1],
  [11, 7, 6, 8, 3, 4, 3, 5, 4, 3, 1, 5, -1, -1, -1, -1],
  [9, 5, 4, 10, 1, 2, 7, 6, 11, -1, -1, -1, -1, -1, -1, -1],
  [6, 11, 7, 1, 2, 10, 0, 8, 3, 4, 9, 5, -1, -1, -1, -1],
  [7, 6, 11, 5, 4, 10, 4, 2, 10, 4, 0, 2, -1, -1, -1, -1],
  [3, 4, 8, 3, 5, 4, 3, 2, 5, 10, 5, 2, 11, 7, 6, -1],
  [7, 2, 3, 7, 6, 2, 5, 4, 9, -1, -1, -1, -1, -1, -1, -1],
  [9, 5, 4, 0, 8, 6, 0, 6, 2, 6, 8, 7, -1, -1, -1, -1],
  [3, 6, 2, 3, 7, 6, 1, 5, 0, 5, 4, 0, -1, -1, -1, -1],
  [6, 2, 8, 6, 8, 7, 2, 1, 8, 4, 8, 5, 1, 5, 8, -1],
  [9, 5, 4, 10, 1, 6, 1, 7, 6, 1, 3, 7, -1, -1, -1, -1],
  [1, 6, 10, 1, 7, 6, 1, 0, 7, 8, 7, 0, 9, 5, 4, -1],
  [4, 0, 10, 4, 10, 5, 0, 3, 10, 6, 10, 7, 3, 7, 10, -1],
  [7, 6, 10, 7, 10, 8, 5, 4, 10, 4, 8, 10, -1, -1, -1, -1],
  [6, 9, 5, 6, 11, 9, 11, 8, 9, -1, -1, -1, -1, -1, -1, -1],
  [3, 6, 11, 0, 6, 3, 0, 5, 6, 0, 9, 5, -1, -1, -1, -1],
  [0, 11, 8, 0, 5, 11, 0, 1, 5, 5, 6, 11, -1, -1, -1, -1],
  [6, 11, 3, 6, 3, 5, 5, 3, 1, -1, -1, -1, -1, -1, -1, -1],
  [1, 2, 10, 9, 5, 11, 9, 11, 8, 11, 5, 6, -1, -1, -1, -1],
  [0, 11, 3, 0, 6, 11, 0, 9, 6, 5, 6, 9, 1, 2, 10, -1],
  [11, 8, 5, 11, 5, 6, 8, 0, 5, 10, 5, 2, 0, 2, 5, -1],
  [6, 11, 3, 6, 3, 5, 2, 10, 3, 10, 5, 3, -1, -1, -1, -1],
  [5, 8, 9, 5, 2, 8, 5, 6, 2, 3, 8, 2, -1, -1, -1, -1],
  [9, 5, 6, 9, 6, 0, 0, 6, 2, -1, -1, -1, -1, -1, -1, -1],
  [1, 5, 8, 1, 8, 0, 5, 6, 8, 3, 8, 2, 6, 2, 8, -1],
  [1, 5, 6, 2, 1, 6, -1, -1, -1, -1, -1, -1, -1, -1, -1, -1],
  [1, 3, 6, 1, 6, 10, 3, 8, 6, 5, 6, 9, 8, 9, 6, -1],
  [10, 1, 0, 10, 0, 6, 9, 5, 0, 5, 6, 0, -1, -1, -1, -1],
  [0, 3, 8, 5, 6, 10, -1, -1, -1, -1, -1, -1, -1, -1, -1, -1],
  [10, 5, 6, -1, -1, -1, -1, -1, -1, -1, -1, -1, -1, -1, -1, -1]]

/-- Modelled from the spec: rows 192 to 223 of `tri_table`. -/
def tri_table_6 : List (List Int) := [
  [11, 5, 10, 7, 5, 11, -1, -1, -1, -1, -1, -1, -1, -1, -1, -1],
  [11, 5, 10, 11, 7, 5, 8, 3, 0, -1, -1, -1, -1, -1, -1, -1],
  [5, 11, 7, 5, 10, 11, 1, 9, 0, -1, -1, -1, -1, -1, -1, -1],
  [10, 7, 5, 10, 11, 7, 9, 8, 1, 8, 3, 1, -1, -1, -1, -1],
  [11, 1, 2, 11, 7, 1, 7, 5, 1, -1, -1, -1, -1, -1, -1, -1],
  [0, 8, 3, 1, 2, 7, 1, 7, 5, 7, 2, 11, -1, -1, -1, -1],
  [9, 7, 5, 9, 2, 7, 9, 0, 2, 2, 11, 7, -1, -1, -1, -1],
  [7, 5, 2, 7, 2, 11, 5, 9, 2, 3, 2, 8, 9, 8, 2, -1],
  [2, 5, 10, 2, 3, 5, 3, 7, 5, -1, -1, -1, -1, -1, -1, -1],
  [8, 2, 0, 8, 5, 2, 8, 7, 5, 10, 2, 5, -1, -1, -1, -1],
  [9, 0, 1, 5, 10, 3, 5, 3, 7, 3, 10, 2, -1, -1, -1, -1],
  [9, 8, 2, 9, 2, 1, 8, 7, 2, 10, 2, 5, 7, 5, 2, -1],
  [1, 3, 5, 3, 7, 5, -1, -1, -1, -1, -1, -1, -1, -1, -1, -1],
  [0, 8, 7, 0, 7, 1, 1, 7, 5, -1, -1, -1, -1, -1, -1, -1],
  [9, 0, 3, 9, 3, 5, 5, 3, 7, -1, -1, -1, -1, -1, -1, -1],
  [9, 8, 7, 5, 9, 7, -1, -1, -1, -1, -1, -1, -1, -1, -1, -1],
  [5, 8, 4, 5, 10, 8, 10, 11, 8, -1, -1, -1, -1, -1, -1, -1],
  [5, 0, 4, 5, 11, 0, 5, 10, 11, 11, 3, 0, -1, -1, -1, -1],
  [0, 1, 9, 8, 4, 10, 8, 10, 11, 10, 4, 5, -1, -1, -1, -1],
  [10, 11, 4, 10, 4, 5, 11, 3, 4, 9, 4, 1, 3, 1, 4, -1],
  [2, 5, 1, 2, 8, 5, 2, 11, 8, 4, 5, 8, -1, -1, -1, -1],
  [0, 4, 11, 0, 11, 3, 4, 5, 11, 2, 11, 1, 5, 1, 11, -1],
  [0, 2, 5, 0, 5, 9, 2, 11, 5, 4, 5, 8, 11, 8, 5, -1],
  [9, 4, 5, 2, 11, 3, -1, -1, -1, -1, -1, -1, -1, -1, -1, -1],
  [2, 5, 10, 3, 5, 2, 3, 4, 5, 3, 8, 4, -1, -1, -1, -1],
  [5, 10, 2, 5, 2, 4, 4, 2, 0, -1, -1, -1, -1, -1, -1, -1],
  [3, 10, 2, 3, 5, 10, 3, 8, 5, 4, 5, 8, 0, 1, 9, -1],
  [5, 10, 2, 5, 2, 4, 1, 9, 2, 9, 4, 2, -1, -1, -1, -1],
  [8, 4, 5, 8, 5, 3, 3, 5, 1, -1, -1, -1, -1, -1, -1, -1],
  [0, 4, 5, 1, 0, 5, -1, -1, -1, -1, -1, -1, -1, -1, -1, -1],
  [8, 4, 5, 8, 5, 3, 9, 0, 5, 0, 3, 5, -1, -1, -1, -1],
  [9, 4, 5, -1, -1, -1, -1, -1, -1, -1, -1, -1, -1, -1, -1, -1]]

/-- Modelled from the spec: rows 224 to 255 of `tri_table`. -/
def tri_table_7 : List (List Int) := [
  [4, 11, 7, 4, 9, 11, 9, 10, 11, -1, -1, -1, -1, -1, -1, -1],
  [0, 8, 3, 4, 9, 7, 9, 11, 7, 9, 10, 11, -1, -1, -1, -1],
  [1, 10, 11, 1, 11, 4, 1, 4, 0, 7, 4, 11, -1, -1, -1, -1],
  [3, 1, 4, 3, 4, 8, 1, 10, 4, 7, 4, 11, 10, 11, 4, -1],
  [4, 11, 7, 9, 11, 4, 9, 2, 11, 9, 1, 2, -1, -1, -1, -1],
  [9, 7, 4, 9, 11, 7, 9, 1, 11, 2, 11, 1, 0, 8, 3, -1],
  [11, 7, 4, 11, 4, 2, 2, 4, 0, -1, -1, -1, -1, -1, -1, -1],
  [11, 7, 4, 11, 4, 2, 8, 3, 4, 3, 2, 4, -1, -1, -1, -1],
  [2, 9, 10, 2, 7, 9, 2, 3, 7, 7, 4, 9, -1, -1, -1, -1],
  [9, 10, 7, 9, 7, 4, 10, 2, 7, 8, 7, 0, 2, 0, 7, -1],
  [3, 7, 10, 3, 10, 2, 7, 4, 10, 1, 10, 0, 4, 0, 10, -1],
  [1, 10, 2, 8, 7, 4, -1, -1, -1, -1, -1, -1, -1, -1, -1, -1],
  [4, 9, 1, 4, 1, 7, 7, 1, 3, -1, -1, -1, -1, -1, -1, -1],
  [4, 9, 1, 4, 1, 7, 0, 8, 1, 8, 7, 1, -1, -1, -1, -1],
  [4, 0, 3, 7, 4, 3, -1, -1, -1, -1, -1, -1, -1, -1, -1, -1],
  [4, 8, 7, -1, -1, -1, -1, -1, -1, -1, -1, -1, -1, -1, -1, -1],
  [9, 10, 8, 10, 11, 8, -1, -1, -1, -1, -1, -1, -1, -1, -1, -1],
  [3, 0, 9, 3, 9, 11, 11, 9, 10, -1, -1, -1, -1, -1, -1, -1],
  [0, 1, 10, 0, 10, 8, 8, 10, 11, -1, -1, -1, -1, -1, -1, -1],
  [3, 1, 10, 11, 3, 10, -1, -1, -1, -1, -1, -1, -1, -1, -1, -1],
  [1, 2, 11, 1, 11, 9, 9, 11, 8, -1, -1, -1, -1, -1, -1, -1],
  [3, 0, 9, 3, 9, 11, 1, 2, 9, 2, 11, 9, -1, -1, -1, -1],
  [0, 2, 11, 8, 0, 11, -1, -1, -1, -1, -1, -1, -1, -1, -1, -1],
  [3, 2, 11, -1, -1, -1, -1, -1, -1, -1, -1, -1, -1, -1, -1, -1],
  [2, 3, 8, 2, 8, 10, 10, 8, 9, -1, -1, -1, -1, -1, -1, -1],
  [9, 10, 2, 0, 9, 2, -1, -1, -1, -1, -1, -1, -1, -1, -1, -1],
  [2, 3, 8, 2, 8, 10, 0, 1, 8, 1, 10, 8, -1, -1, -1, -1],
  [1, 10, 2, -1, -1, -1, -1, -1, -1, -1, -1, -1, -1, -1, -1, -1],
  [1, 3, 8, 9, 1, 8, -1, -1, -1, -1, -1, -1, -1, -1, -1, -1],
  [0, 9, 1, -1, -1, -1, -1, -1, -1, -1, -1, -1, -1, -1, -1, -1],
  [0, 3, 8, -1, -1, -1, -1, -1, -1, -1, -1, -1, -1, -1, -1, -1],
  [-1, -1, -1, -1, -1, -1, -1, -1, -1, -1, -1, -1, -1, -1, -1, -1]]

/-- Modelled from the spec: the array `tri_table[256][16]` of `lookup_tables.h`,
the standard published table of edge-index triples, each row ended by the
sentinel `-1`. -/
def tri_table : List (List Int) :=
  tri_table_0 ++ tri_table_1 ++ tri_table_2 ++ tri_table_3 ++
  tri_table_4 ++ tri_table_5 ++ tri_table_6 ++ tri_table_7

/-- Modelled from the spec: the pair of tables of `lookup_tables.h`. -/
def lookup_tables : LookupTables := ⟨edge_table, tri_table⟩

/-! ## Definitions used by the statements -/

/-- The cell traversal order of the specification, written from its words:
every cell index `(x, y, z)` of an `nx * ny * nz` grid once, `z` outermost,
then `y`, then `x` innermost. -/
def cellOrder (nx ny nz : Nat) : List (Nat × Nat × Nat) :=
  (List.range nz).flatMap fun z =>
    (List.range ny).flatMap fun y =>
      (List.range nx).map fun x => (x, y, z)

/-- The order "z first, then y, then x" on cell indices `(x, y, z)`. -/
def cellBefore (a b : Nat × Nat × Nat) : Prop :=
  a.2.2 < b.2.2 ∨ (a.2.2 = b.2.2 ∧ (a.2.1 < b.2.1 ∨ (a.2.1 = b.2.1 ∧ a.1 < b.1)))

/-- The loop of `edge_table_lookup` on the eight outcomes of its test. -/
def lookupOfBits (b : Fin 8 → Bool) : Nat :=
  (List.finRange 8).foldl (fun acc i => if b i then acc ||| (0x01 <<< i.val) else acc) 0

/-- The three vertices of a flat-shaded triangle: positions `t.1`, `t.2.1`,
`t.2.2.1` and the common normal `t.2.2.2`. -/
def flatTriangle {F : Type} (t : vec3 F × vec3 F × vec3 F × vec3 F) : List (Vertex F) :=
  [⟨t.1, t.2.2.2⟩, ⟨t.2.1, t.2.2.2⟩, ⟨t.2.2.1, t.2.2.2⟩]

/-- A vertex sequence made of whole flat-shaded triangles. -/
def IsTriangleList {F : Type} (l : List (Vertex F)) : Prop :=
  ∃ ts : List (vec3 F × vec3 F × vec3 F × vec3 F), l = ts.flatMap flatTriangle

/-- The normal `normalize(cross(p2 - p1, p3 - p1))` of the triangle `p1 p2 p3`. -/
def faceNormal {F : Type} [Field F] (sqrt : F → F) (p1 p2 p3 : vec3 F) : vec3 F :=
  vec3.normalize sqrt (vec3.cross (vec3.sub p2 p1) (vec3.sub p3 p1))

/-- The polygonizer of the region `[0, 1]³` at resolution 1: a single cell
with corner 0 at the centre of the unit sphere and no other corner inside. -/
def unitRegion : MarchingCubes ℚ := MarchingCubes.construct ⟨0, 0, 0⟩ ⟨1, 1, 1⟩ 1

/-- Corner values with only corner 0 inside for the iso-value 0. -/
def cornerZeroInside : Fin 8 → ℚ := ![-1, 1, 1, 1, 1, 1, 1, 1]

/-- The number of leading index triples of a row of `tri_table`, among its
five triples, that contain no `-1`. -/
def triangleCount (row : List Int) : Nat :=
  ((List.range 5).takeWhile fun j =>
    decide (¬ (row.getD (3 * j) (-1) = -1 ∨ row.getD (3 * j + 1) (-1) = -1
      ∨ row.getD (3 * j + 2) (-1) = -1))).length

/-- A binary32 value (`float`): a finite value `k * 2^(-149)` with `k` an
integer, an infinity with its sign, or a NaN. Every finite binary32 number is
a multiple of `2^(-149)`; the sign of zero is not represented. -/
inductive Float32 where
  | fin (k : Int)
  | inf (negative : Bool)
  | nan
deriving DecidableEq

namespace Float32

/-- The exponent of the binary32 spacing at magnitude `q` (in units of
`2^(-149)`): the largest `s ≤ fuel` with `2^(23 + s) ≤ q`, or 0. -/
def spacing (q : Nat) : Nat → Nat
  | 0 => 0
  | s + 1 => if 2 ^ 24 ≤ q / 2 ^ s then s + 1 else spacing q s

/-- Rounding of the non-negative quotient `n / d` to the nearest integer,
ties to even. -/
def roundEven (n d : Nat) : Nat :=
  if d < 2 * (n % d) ∨ (2 * (n % d) = d ∧ (n / d) % 2 = 1) then n / d + 1 else n / d

/-- The binary32 number nearest to `n / d` units of `2^(-149)`, ties to even,
and the infinity of its sign when that number is beyond the largest finite
one (round-to-nearest of IEEE 754). For `d = 0` the result is NaN. -/
def round (n : Int) (d : Nat) : Float32 :=
  if d = 0 then nan
  else
    let s := spacing (n.natAbs / d) 254
    let j := roundEven n.natAbs (d * 2 ^ s)
    if 2 ^ 24 ≤ j * 2 ^ s / 2 ^ 253 then inf (decide (n < 0))
    else if n < 0 then fin (-(j * 2 ^ s : Nat)) else fin (j * 2 ^ s : Nat)

/-- The binary32 number nearest to the rational `n / d`, as for a literal. -/
def ofRatio (n : Int) (d : Nat) : Float32 := round (n * 2 ^ 149) d

/-- The conversion of an `int` to `float`. -/
def ofInt (n : Int) : Float32 := round (n * 2 ^ 149) 1

/-- Binary32 addition. -/
def add : Float32 → Float32 → Float32
  | fin a, fin b => round (a + b) 1
  | fin _, inf s => inf s
  | inf s, fin _ => inf s
  | inf s, inf t => if s = t then inf s else nan
  | _, _ => nan

/-- Binary32 negation. -/
def neg : Float32 → Float32
  | fin a => fin (-a)
  | inf s => inf (!s)
  | nan => nan

/-- Binary32 subtraction. -/
def sub (x y : Float32) : Float32 := add x (neg y)

/-- Binary32 multiplication. -/
def mul : Float32 → Float32 → Float32
  | fin a, fin b => round (a * b) (2 ^ 149)
  | fin a, inf s => if a = 0 then nan else inf (decide (a < 0) != s)
  | inf s, fin b => if b = 0 then nan else inf (s != decide (b < 0))
  | inf s, inf t => inf (s != t)
  | _, _ => nan

/-- The comparison `x ≤ y` of binary32: false when an operand is NaN. -/
def le : Float32 → Float32 → Bool
  | fin a, fin b => decide (a ≤ b)
  | fin _, inf s => !s
  | inf s, fin _ => s
  | inf s, inf t => s || !t
  | _, _ => false

end Float32

/-- Lines 35-43 of `Polygonize` in binary32: the cube of the cell `(x, y, z)`,
each coordinate `start_pt.a + resolution * k` with `k` the `int` index or the
index plus one, converted to `float`. -/
def cell32 (start_pt : Point Float32) (resolution : Float32) (x y z : Nat) :
    GridCell Float32 where
  bounds := ![
    ⟨Float32.add start_pt.x (Float32.mul resolution (Float32.ofInt x)),
      Float32.add start_pt.y (Float32.mul resolution (Float32.ofInt y)),
      Float32.add start_pt.z (Float32.mul resolution (Float32.ofInt z))⟩,
    ⟨Float32.add start_pt.x (Float32.mul resolution (Float32.ofInt (x + 1))),
      Float32.add start_pt.y (Float32.mul resolution (Float32.ofInt y)),
      Float32.add start_pt.z (Float32.mul resolution (Float32.ofInt z))⟩,
    ⟨Float32.add start_pt.x (Float32.mul resolution (Float32.ofInt (x + 1))),
      Float32.add start_pt.y (Float32.mul resolution (Float32.ofInt (y + 1))),
      Float32.add start_pt.z (Float32.mul resolution (Float32.ofInt z))⟩,
    ⟨Float32.add start_pt.x (Float32.mul resolution (Float32.ofInt x)),
      Float32.add start_pt.y (Float32.mul resolution (Float32.ofInt (y + 1))),
      Float32.add start_pt.z (Float32.mul resolution (Float32.ofInt z))⟩,
    ⟨Float32.add start_pt.x (Float32.mul resolution (Float32.ofInt x)),
      Float32.add start_pt.y (Float32.mul resolution (Float32.ofInt y)),
      Float32.add start_pt.z (Float32.mul resolution (Float32.ofInt (z + 1)))⟩,
    ⟨Float32.add start_pt.x (Float32.mul resolution (Float32.ofInt (x + 1))),
      Float32.add start_pt.y (Float32.mul resolution (Float32.ofInt y)),
      Float32.add start_pt.z (Float32.mul resolution (Float32.ofInt (z + 1)))⟩,
    ⟨Float32.add start_pt.x (Float32.mul resolution (Float32.ofInt (x + 1))),
      Float32.add start_pt.y (Float32.mul resolution (Float32.ofInt (y + 1))),
      Float32.add start_pt.z (Float32.mul resolution (Float32.ofInt (z + 1)))⟩,
    ⟨Float32.add start_pt.x (Float32.mul resolution (Float32.ofInt x)),
      Float32.add start_pt.y (Float32.mul resolution (Float32.ofInt (y + 1))),
      Float32.add start_pt.z (Float32.mul resolution (Float32.ofInt (z + 1)))⟩]

section Append

variable {F : Type} [LinearOrderedField F]

theorem forLoop_succ {σ : Type} (n : Nat) (body : Nat → σ → σ) (s : σ) :
    forLoop (n + 1) body s = body n (forLoop n body s) := by
  simp [forLoop, List.range_succ, List.foldl_append]

theorem forLoop_append {α : Type} (n : Nat) (body : Nat → List α → List α)
    (g : Nat → List α) (h : ∀ i acc, body i acc = acc ++ g i) (s : List α) :
    forLoop n body s = s ++ (List.range n).flatMap g := by
  induction n with
  | zero => simp [forLoop]
  | succ n ih =>
    rw [forLoop_succ, h, ih, List.range_succ, List.flatMap_append]
    simp

theorem triangleLoop_append (sqrt : F → F) (row : List Int) (ve : List (Point F))
    (is : List Nat) (out : List (Vertex F)) :
    triangleLoop sqrt row ve is out = out ++ triangleLoop sqrt row ve is [] := by
  induction is generalizing out with
  | nil => simp [triangleLoop]
  | cons i rest ih =>
    simp only [triangleLoop]
    split
    · simp
    · rw [ih (out ++ _), ih ([] ++ _)]
      simp

theorem PolygonizeCubeValues_append (T : LookupTables) (sqrt : F → F) (iso_value : F)
    (cube : GridCell F) (values : Fin 8 → F) (out : List (Vertex F)) :
    PolygonizeCubeValues T sqrt iso_value cube values out
      = out ++ PolygonizeCubeValues T sqrt iso_value cube values [] := by
  simp only [PolygonizeCubeValues]
  split
  · simp
  · exact triangleLoop_append _ _ _ _ _

theorem PolygonizeCube_append (T : LookupTables) (sqrt : F → F) (mc : MarchingCubes F)
    (cube : GridCell F) (out : List (Vertex F)) :
    mc.PolygonizeCube T sqrt cube out = out ++ mc.PolygonizeCube T sqrt cube [] :=
  PolygonizeCubeValues_append _ _ _ _ _ _

theorem Polygonize_eq_flatMap (T : LookupTables) (sqrt : F → F) (mc : MarchingCubes F)
    (out : List (Vertex F)) :
    mc.Polygonize T sqrt out = out ++
      (List.range mc.num_z_steps.toNat).flatMap fun z =>
        (List.range mc.num_y_steps.toNat).flatMap fun y =>
          (List.range mc.num_x_steps.toNat).flatMap fun x =>
            mc.PolygonizeCube T sqrt (mc.cell x y z) [] := by
  unfold MarchingCubes.Polygonize
  apply forLoop_append
  intro z acc
  apply forLoop_append
  intro y acc
  apply forLoop_append
  intro x acc
  exact PolygonizeCube_append _ _ _ _ _

theorem cellOrder_flatMap {β : Type} (nx ny nz : Nat) (f : Nat × Nat × Nat → List β) :
    (cellOrder nx ny nz).flatMap f =
      (List.range nz).flatMap fun z =>
        (List.range ny).flatMap fun y =>
          (List.range nx).flatMap fun x => f (x, y, z) := by
  simp [cellOrder, List.flatMap_assoc, List.flatMap_map]

theorem mem_cellOrder (nx ny nz x y z : Nat) :
    (x, y, z) ∈ cellOrder nx ny nz ↔ x < nx ∧ y < ny ∧ z < nz := by
  simp only [cellOrder, List.mem_flatMap, List.mem_map, List.mem_range, Prod.mk.injEq]
  constructor
  · rintro ⟨z', hz, y', hy, x', hx, rfl, rfl, rfl⟩
    exact ⟨hx, hy, hz⟩
  · rintro ⟨hx, hy, hz⟩
    exact ⟨z, hz, y, hy, x, hx, rfl, rfl, rfl⟩

theorem cellOrder_pairwise (nx ny nz : Nat) :
    (cellOrder nx ny nz).Pairwise cellBefore := by
  unfold cellOrder
  rw [List.pairwise_flatMap]
  refine ⟨fun z _ => ?_, ?_⟩
  · rw [List.pairwise_flatMap]
    refine ⟨fun y _ => ?_, ?_⟩
    · rw [List.pairwise_map]
      exact (List.pairwise_lt_range nx).imp fun h => Or.inr ⟨rfl, Or.inr ⟨rfl, h⟩⟩
    · refine (List.pairwise_lt_range ny).imp fun {a b} h => ?_
      intro p hp q hq
      simp only [List.mem_map] at hp hq
      obtain ⟨_, _, rfl⟩ := hp
      obtain ⟨_, _, rfl⟩ := hq
      exact Or.inr ⟨rfl, Or.inl h⟩
  · refine (List.pairwise_lt_range nz).imp fun {a b} h => ?_
    intro p hp q hq
    simp only [List.mem_flatMap, List.mem_map] at hp hq
    obtain ⟨_, _, _, _, rfl⟩ := hp
    obtain ⟨_, _, _, _, rfl⟩ := hq
    exact Or.inl h

end Append

/-! ## The configuration index -/

section Index

variable {F : Type} [LinearOrderedField F]

theorem edge_table_lookup_eq_lookupOfBits (iso_value : F) (values : Fin 8 → F) :
    edge_table_lookup iso_value values = lookupOfBits fun i => decide (values i < iso_value) := by
  simp [edge_table_lookup, lookupOfBits]

theorem lookupOfBits_vec_spec : ∀ b0 b1 b2 b3 b4 b5 b6 b7 : Bool,
    lookupOfBits ![b0, b1, b2, b3, b4, b5, b6, b7] < 256
      ∧ ∀ i : Fin 8, (lookupOfBits ![b0, b1, b2, b3, b4, b5, b6, b7]).testBit i.val
          = ![b0, b1, b2, b3, b4, b5, b6, b7] i := by
  decide

theorem eq_vec8 {α : Type} (b : Fin 8 → α) :
    b = ![b 0, b 1, b 2, b 3, b 4, b 5, b 6, b 7] := by
  funext i
  fin_cases i <;> rfl

theorem lookupOfBits_spec (b : Fin 8 → Bool) :
    lookupOfBits b < 256 ∧ ∀ i : Fin 8, (lookupOfBits b).testBit i.val = b i := by
  rw [eq_vec8 b]
  exact lookupOfBits_vec_spec _ _ _ _ _ _ _ _

theorem edge_table_lookup_lt (iso_value : F) (values : Fin 8 → F) :
    edge_table_lookup iso_value values < 256 := by
  rw [edge_table_lookup_eq_lookupOfBits]
  exact (lookupOfBits_spec _).1

theorem edge_table_lookup_testBit (iso_value : F) (values : Fin 8 → F) (i : Fin 8) :
    (edge_table_lookup iso_value values).testBit i.val = decide (values i < iso_value) := by
  rw [edge_table_lookup_eq_lookupOfBits]
  exact (lookupOfBits_spec _).2 i

theorem lookupOfBits_vec_zero : ∀ b0 b1 b2 b3 b4 b5 b6 b7 : Bool,
    (lookupOfBits ![b0, b1, b2, b3, b4, b5, b6, b7] = 0
        ↔ ∀ i : Fin 8, ![b0, b1, b2, b3, b4, b5, b6, b7] i = false)
      ∧ (lookupOfBits ![b0, b1, b2, b3, b4, b5, b6, b7] = 255
        ↔ ∀ i : Fin 8, ![b0, b1, b2, b3, b4, b5, b6, b7] i = true)
      ∧ (lookupOfBits ![b0, b1, b2, b3, b4, b5, b6, b7] = 1
        ↔ b0 = true ∧ ∀ i : Fin 8, i ≠ 0 → ![b0, b1, b2, b3, b4, b5, b6, b7] i = false) := by
  decide

theorem lookupOfBits_vec_254 : ∀ b0 b1 b2 b3 b4 b5 b6 b7 : Bool,
    (lookupOfBits ![b0, b1, b2, b3, b4, b5, b6, b7] = 254
        ↔ b0 = false ∧ ∀ i : Fin 8, i ≠ 0 → ![b0, b1, b2, b3, b4, b5, b6, b7] i = true) := by
  decide

theorem edge_table_lookup_eq_254_iff (iso_value : F) (values : Fin 8 → F) :
    edge_table_lookup iso_value values = 254
      ↔ ¬ values 0 < iso_value ∧ ∀ i, i ≠ 0 → values i < iso_value := by
  rw [edge_table_lookup_eq_lookupOfBits, eq_vec8 fun i => decide (values i < iso_value)]
  rw [lookupOfBits_vec_254, ← eq_vec8 fun i => decide (values i < iso_value)]
  simp

theorem edge_table_lookup_eq_zero_iff (iso_value : F) (values : Fin 8 → F) :
    edge_table_lookup iso_value values = 0 ↔ ∀ i, ¬ values i < iso_value := by
  rw [edge_table_lookup_eq_lookupOfBits, eq_vec8 fun i => decide (values i < iso_value)]
  rw [(lookupOfBits_vec_zero _ _ _ _ _ _ _ _).1, ← eq_vec8 fun i => decide (values i < iso_value)]
  simp

theorem edge_table_lookup_eq_255_iff (iso_value : F) (values : Fin 8 → F) :
    edge_table_lookup iso_value values = 255 ↔ ∀ i, values i < iso_value := by
  rw [edge_table_lookup_eq_lookupOfBits, eq_vec8 fun i => decide (values i < iso_value)]
  rw [(lookupOfBits_vec_zero _ _ _ _ _ _ _ _).2.1, ← eq_vec8 fun i => decide (values i < iso_value)]
  simp

theorem edge_table_lookup_eq_one_iff (iso_value : F) (values : Fin 8 → F) :
    edge_table_lookup iso_value values = 1
      ↔ values 0 < iso_value ∧ ∀ i, i ≠ 0 → ¬ values i < iso_value := by
  rw [edge_table_lookup_eq_lookupOfBits, eq_vec8 fun i => decide (values i < iso_value)]
  rw [(lookupOfBits_vec_zero _ _ _ _ _ _ _ _).2.2, ← eq_vec8 fun i => decide (values i < iso_value)]
  simp

end Index

/-! ## Facts of the lookup tables -/

section TableFacts

set_option maxRecDepth 100000 in
theorem edge_table_length : lookup_tables.edge_table.length = 256 := by decide

set_option maxRecDepth 100000 in
theorem tri_table_length : lookup_tables.tri_table.length = 256 := by decide

set_option maxRecDepth 100000 in
theorem tri_table_row_length : ∀ row ∈ lookup_tables.tri_table, row.length = 16 := by decide

set_option maxRecDepth 100000 in
theorem edge_table_eq_zero_iff :
    ∀ c < 256, (lookup_tables.edge_table.getD c 0 = 0 ↔ c = 0 ∨ c = 255) := by decide

set_option maxRecDepth 100000 in
theorem edgeFlagged_testBit :
    ∀ c < 256, ∀ e < 12, edgeFlagged lookup_tables c e = true →
      c.testBit (edges.getD e (0, 0)).1.val ≠ c.testBit (edges.getD e (0, 0)).2.val := by
  decide

end TableFacts

section TableRows

set_option maxRecDepth 100000 in
theorem edge_table_one : lookup_tables.edge_table.getD 1 0 = 0x109 := by decide

set_option maxRecDepth 100000 in
theorem tri_table_one :
    lookup_tables.tri_table.getD 1 [] =
      [0, 8, 3, -1, -1, -1, -1, -1, -1, -1, -1, -1, -1, -1, -1, -1] := by decide

set_option maxRecDepth 100000 in
theorem edgeFlagged_one :
    ∀ e < 12, (edgeFlagged lookup_tables 1 e = true ↔ e = 0 ∨ e = 3 ∨ e = 8) := by decide

set_option maxRecDepth 100000 in
theorem edge_table_254 : lookup_tables.edge_table.getD 254 0 = 0x109 := by decide

set_option maxRecDepth 100000 in
theorem tri_table_254 :
    lookup_tables.tri_table.getD 254 [] =
      [0, 3, 8, -1, -1, -1, -1, -1, -1, -1, -1, -1, -1, -1, -1, -1] := by decide

set_option maxRecDepth 100000 in
theorem edgeFlagged_254 :
    ∀ e < 12, (edgeFlagged lookup_tables 254 e = true ↔ e = 0 ∨ e = 3 ∨ e = 8) := by decide

end TableRows

/-! ## Edge interpolation -/

section Interpolation

variable {F : Type} [LinearOrderedField F]

theorem forLoop_set_length {α : Type} (n : Nat) (c : Nat → Bool) (f : Nat → α) (init : List α) :
    (forLoop n (fun i ve => if c i then ve.set i (f i) else ve) init).length = init.length := by
  induction n with
  | zero => simp [forLoop]
  | succ n ih =>
    rw [forLoop_succ]
    split <;> simp [ih]

theorem forLoop_set_getD {α : Type} (n : Nat) (c : Nat → Bool) (f : Nat → α) (init : List α)
    (d : α) (j : Nat) (hj : j < init.length) :
    (forLoop n (fun i ve => if c i then ve.set i (f i) else ve) init).getD j d
      = if j < n ∧ c j = true then f j else init.getD j d := by
  induction n with
  | zero => simp [forLoop]
  | succ n ih =>
    rw [forLoop_succ]
    have hlen := forLoop_set_length n c f init
    by_cases hc : c n = true
    · rw [if_pos hc]
      by_cases hjn : j = n
      · subst hjn
        simp [List.getD_eq_getElem?_getD, List.getElem?_set, hlen, hj, hc]
      · have hne : n ≠ j := fun h => hjn h.symm
        have h1 : (j < n + 1 ∧ c j = true) ↔ (j < n ∧ c j = true) := by
          constructor
          · rintro ⟨h, h'⟩
            exact ⟨by omega, h'⟩
          · rintro ⟨h, h'⟩
            exact ⟨by omega, h'⟩
        simp only [List.getD_eq_getElem?_getD, List.getElem?_set, if_neg hne, h1] at ih ⊢
        exact ih
    · rw [if_neg hc, ih]
      by_cases hjn : j = n
      · subst hjn
        simp [hc]
      · have h1 : (j < n + 1 ∧ c j = true) ↔ (j < n ∧ c j = true) := by
          constructor
          · rintro ⟨h, h'⟩
            exact ⟨by omega, h'⟩
          · rintro ⟨h, h'⟩
            exact ⟨by omega, h'⟩
        simp only [h1]

theorem vertex_edges_length (T : LookupTables) (iso_value : F) (cube : GridCell F)
    (values : Fin 8 → F) (lookup : Nat) :
    (vertex_edges T iso_value cube values lookup).length = 12 := by
  unfold vertex_edges
  rw [forLoop_set_length]
  simp

theorem vertex_edges_getD (T : LookupTables) (iso_value : F) (cube : GridCell F)
    (values : Fin 8 → F) (lookup e : Nat) (he : e < 12) :
    (vertex_edges T iso_value cube values lookup).getD e ⟨0, 0, 0⟩
      = if edgeFlagged T lookup e = true then interpolate iso_value cube values e
        else ⟨0, 0, 0⟩ := by
  unfold vertex_edges
  have hrep : (List.replicate 12 (⟨0, 0, 0⟩ : Point F)).getD e ⟨0, 0, 0⟩ = ⟨0, 0, 0⟩ := by
    rw [List.getD_eq_getElem?_getD, List.getElem?_replicate]
    split <;> rfl
  rw [forLoop_set_getD _ _ _ _ _ _ (by rw [List.length_replicate]; exact he), hrep]
  simp only [he, true_and]

theorem lerp_between {lo hi a b t : F} (ht0 : 0 ≤ t) (ht1 : t ≤ 1) (ha : lo ≤ a) (ha' : a ≤ hi)
    (hb : lo ≤ b) (hb' : b ≤ hi) : lo ≤ a + t * (b - a) ∧ a + t * (b - a) ≤ hi := by
  have h1 : 0 ≤ 1 - t := sub_nonneg.2 ht1
  constructor
  · nlinarith [mul_nonneg ht0 (sub_nonneg.2 hb), mul_nonneg h1 (sub_nonneg.2 ha)]
  · nlinarith [mul_nonneg ht0 (sub_nonneg.2 hb'), mul_nonneg h1 (sub_nonneg.2 ha')]

theorem fraction_mem_unit {iso va vb : F} (h : decide (va < iso) ≠ decide (vb < iso)) :
    vb - va ≠ 0 ∧ 0 ≤ (iso - va) / (vb - va) ∧ (iso - va) / (vb - va) ≤ 1 := by
  by_cases ha : va < iso
  · have hb : ¬ vb < iso := by
      intro hb
      exact h (by simp [ha, hb])
    have hb' : iso ≤ vb := not_lt.1 hb
    have hpos : 0 < vb - va := by linarith
    refine ⟨ne_of_gt hpos, div_nonneg (by linarith) hpos.le, ?_⟩
    rw [div_le_one hpos]
    linarith
  · have hb : vb < iso := by
      by_contra hb
      exact h (by simp [ha, hb])
    have ha' : iso ≤ va := not_lt.1 ha
    have hneg : vb - va < 0 := by linarith
    refine ⟨ne_of_lt hneg, div_nonneg_of_nonpos (by linarith) hneg.le, ?_⟩
    rw [div_le_one_of_neg hneg]
    linarith

theorem cell_bounds_between (mc : MarchingCubes F) (hres : 0 < mc.resolution) (x y z : Nat)
    (i : Fin 8) :
    ((mc.cell x y z).bounds 0).x ≤ ((mc.cell x y z).bounds i).x
      ∧ ((mc.cell x y z).bounds i).x ≤ ((mc.cell x y z).bounds 6).x
      ∧ ((mc.cell x y z).bounds 0).y ≤ ((mc.cell x y z).bounds i).y
      ∧ ((mc.cell x y z).bounds i).y ≤ ((mc.cell x y z).bounds 6).y
      ∧ ((mc.cell x y z).bounds 0).z ≤ ((mc.cell x y z).bounds i).z
      ∧ ((mc.cell x y z).bounds i).z ≤ ((mc.cell x y z).bounds 6).z := by
  have h6 : (mc.cell x y z).bounds 6 =
      ⟨mc.start_pt.x + mc.resolution * (x + 1 : Nat), mc.start_pt.y + mc.resolution * (y + 1 : Nat),
        mc.start_pt.z + mc.resolution * (z + 1 : Nat)⟩ := rfl
  have h0 : (mc.cell x y z).bounds 0 =
      ⟨mc.start_pt.x + mc.resolution * x, mc.start_pt.y + mc.resolution * y,
        mc.start_pt.z + mc.resolution * z⟩ := rfl
  have hx : mc.resolution * (x : F) ≤ mc.resolution * ((x + 1 : Nat) : F) := by
    push_cast
    nlinarith
  have hy : mc.resolution * (y : F) ≤ mc.resolution * ((y + 1 : Nat) : F) := by
    push_cast
    nlinarith
  have hz : mc.resolution * (z : F) ≤ mc.resolution * ((z + 1 : Nat) : F) := by
    push_cast
    nlinarith
  rw [h6, h0]
  fin_cases i <;>
    refine ⟨?_, ?_, ?_, ?_, ?_, ?_⟩ <;>
    first
      | exact le_refl _
      | exact add_le_add_left hx _
      | exact add_le_add_left hy _
      | exact add_le_add_left hz _

end Interpolation

/-! ## Triangles in the output -/

section Triangles

variable {F : Type} [LinearOrderedField F]

omit [LinearOrderedField F] in
theorem IsTriangleList.nil : IsTriangleList ([] : List (Vertex F)) := ⟨[], rfl⟩

omit [LinearOrderedField F] in
theorem IsTriangleList.append {l₁ l₂ : List (Vertex F)} (h₁ : IsTriangleList l₁)
    (h₂ : IsTriangleList l₂) : IsTriangleList (l₁ ++ l₂) := by
  obtain ⟨t₁, rfl⟩ := h₁
  obtain ⟨t₂, rfl⟩ := h₂
  exact ⟨t₁ ++ t₂, (List.flatMap_append _ _ _).symm⟩

omit [LinearOrderedField F] in
theorem IsTriangleList.flatMap {α : Type} (l : List α) (g : α → List (Vertex F))
    (h : ∀ a ∈ l, IsTriangleList (g a)) : IsTriangleList (l.flatMap g) := by
  induction l with
  | nil => exact IsTriangleList.nil
  | cons a l ih =>
    rw [List.flatMap_cons]
    exact (h a (List.mem_cons_self _ _)).append
      (ih fun b hb => h b (List.mem_cons_of_mem _ hb))

theorem triangle_isTriangleList (sqrt : F → F) (ve : List (Point F)) (i1 i2 i3 : Int) :
    IsTriangleList (triangle sqrt ve i1 i2 i3) :=
  ⟨[((ve.getD i1.toNat ⟨0, 0, 0⟩).toVec3, (ve.getD i2.toNat ⟨0, 0, 0⟩).toVec3,
      (ve.getD i3.toNat ⟨0, 0, 0⟩).toVec3,
      vec3.normalize sqrt (vec3.cross
        (vec3.sub (ve.getD i2.toNat ⟨0, 0, 0⟩).toVec3 (ve.getD i1.toNat ⟨0, 0, 0⟩).toVec3)
        (vec3.sub (ve.getD i3.toNat ⟨0, 0, 0⟩).toVec3 (ve.getD i1.toNat ⟨0, 0, 0⟩).toVec3)))],
    by simp [triangle, flatTriangle]⟩

theorem triangleLoop_isTriangleList (sqrt : F → F) (row : List Int) (ve : List (Point F))
    (is : List Nat) : IsTriangleList (triangleLoop sqrt row ve is []) := by
  induction is with
  | nil => exact IsTriangleList.nil
  | cons i rest ih =>
    simp only [triangleLoop]
    split
    · exact IsTriangleList.nil
    · rw [triangleLoop_append]
      exact (IsTriangleList.nil.append (triangle_isTriangleList _ _ _ _ _)).append ih

theorem PolygonizeCube_isTriangleList (T : LookupTables) (sqrt : F → F) (mc : MarchingCubes F)
    (cube : GridCell F) : IsTriangleList (mc.PolygonizeCube T sqrt cube []) := by
  unfold MarchingCubes.PolygonizeCube PolygonizeCubeValues
  simp only
  split
  · exact IsTriangleList.nil
  · exact triangleLoop_isTriangleList _ _ _ _

theorem Polygonize_drop (T : LookupTables) (sqrt : F → F) (mc : MarchingCubes F)
    (out : List (Vertex F)) :
    (mc.Polygonize T sqrt out).drop out.length =
      (List.range mc.num_z_steps.toNat).flatMap fun z =>
        (List.range mc.num_y_steps.toNat).flatMap fun y =>
          (List.range mc.num_x_steps.toNat).flatMap fun x =>
            mc.PolygonizeCube T sqrt (mc.cell x y z) [] := by
  rw [Polygonize_eq_flatMap, List.drop_left]

theorem Polygonize_isTriangleList (T : LookupTables) (sqrt : F → F) (mc : MarchingCubes F)
    (out : List (Vertex F)) : IsTriangleList ((mc.Polygonize T sqrt out).drop out.length) := by
  rw [Polygonize_drop]
  exact IsTriangleList.flatMap _ _ fun z _ => IsTriangleList.flatMap _ _ fun y _ =>
    IsTriangleList.flatMap _ _ fun x _ => PolygonizeCube_isTriangleList _ _ _ _

omit [LinearOrderedField F] in
theorem flatTriangle_flatMap_length (ts : List (vec3 F × vec3 F × vec3 F × vec3 F)) :
    (ts.flatMap flatTriangle).length = 3 * ts.length := by
  induction ts with
  | nil => rfl
  | cons t ts ih =>
    rw [List.flatMap_cons, List.length_append, ih]
    simp [flatTriangle]
    omega

omit [LinearOrderedField F] in
theorem flatTriangle_flatMap_getElem? (ts : List (vec3 F × vec3 F × vec3 F × vec3 F)) (k : Nat)
    (v1 v2 v3 : Vertex F)
    (h1 : (ts.flatMap flatTriangle)[3 * k]? = some v1)
    (h2 : (ts.flatMap flatTriangle)[3 * k + 1]? = some v2)
    (h3 : (ts.flatMap flatTriangle)[3 * k + 2]? = some v3) :
    v1.normal = v2.normal ∧ v2.normal = v3.normal := by
  induction ts generalizing k with
  | nil => simp at h1
  | cons t ts ih =>
    rw [List.flatMap_cons] at h1 h2 h3
    cases k with
    | zero =>
      simp [flatTriangle] at h1 h2 h3
      subst h1 h2 h3
      exact ⟨rfl, rfl⟩
    | succ k =>
      have e1 : 3 * (k + 1) = 3 * k + 3 := by ring
      have e2 : 3 * (k + 1) + 1 = 3 * k + 1 + 3 := by ring
      have e3 : 3 * (k + 1) + 2 = 3 * k + 2 + 3 := by ring
      rw [e1] at h1
      rw [e2] at h2
      rw [e3] at h3
      have hlen : (flatTriangle t).length = 3 := rfl
      rw [List.getElem?_append_right (by rw [hlen]; omega), hlen, Nat.add_sub_cancel] at h1 h2 h3
      exact ih k h1 h2 h3

end Triangles

/-! ## Cubes with a single triangle -/

section SingleTriangle

variable {F : Type} [LinearOrderedField F]

theorem vec8_five {α : Type} (a0 a1 a2 a3 a4 a5 a6 a7 : α) :
    ![a0, a1, a2, a3, a4, a5, a6, a7] 5 = a5 := rfl

theorem vec8_six {α : Type} (a0 a1 a2 a3 a4 a5 a6 a7 : α) :
    ![a0, a1, a2, a3, a4, a5, a6, a7] 6 = a6 := rfl

theorem vec8_seven {α : Type} (a0 a1 a2 a3 a4 a5 a6 a7 : α) :
    ![a0, a1, a2, a3, a4, a5, a6, a7] 7 = a7 := rfl

theorem triangleLoop_single (sqrt : F → F) (ve : List (Point F)) (a b c : Int)
    (ha : a ≠ -1) (hb : b ≠ -1) (hc : c ≠ -1) (out : List (Vertex F)) :
    triangleLoop sqrt [a, b, c, -1, -1, -1, -1, -1, -1, -1, -1, -1, -1, -1, -1, -1] ve
      (List.range 5) out = out ++ triangle sqrt ve a b c := by
  have h5 : List.range 5 = [0, 1, 2, 3, 4] := by decide
  rw [h5]
  simp [triangleLoop, ha, hb, hc]

theorem triangle_eq_faceNormal (sqrt : F → F) (ve : List (Point F)) (a b c : Int) :
    triangle sqrt ve a b c =
      flatTriangle ((ve.getD a.toNat ⟨0, 0, 0⟩).toVec3, (ve.getD b.toNat ⟨0, 0, 0⟩).toVec3,
        (ve.getD c.toNat ⟨0, 0, 0⟩).toVec3,
        faceNormal sqrt (ve.getD a.toNat ⟨0, 0, 0⟩).toVec3 (ve.getD b.toNat ⟨0, 0, 0⟩).toVec3
          (ve.getD c.toNat ⟨0, 0, 0⟩).toVec3) := rfl

/-- A cube whose only inside corner is corner 0 gets the single triangle on
the edges 0, 8, 3. -/
theorem PolygonizeCubeValues_only_corner_zero_inside (sqrt : F → F) (iso_value : F)
    (cube : GridCell F) (values : Fin 8 → F) (out : List (Vertex F))
    (h0 : values 0 < iso_value) (hrest : ∀ i : Fin 8, i ≠ 0 → ¬ values i < iso_value) :
    PolygonizeCubeValues lookup_tables sqrt iso_value cube values out = out ++
      [⟨(interpolate iso_value cube values 0).toVec3,
          faceNormal sqrt (interpolate iso_value cube values 0).toVec3
            (interpolate iso_value cube values 8).toVec3
            (interpolate iso_value cube values 3).toVec3⟩,
       ⟨(interpolate iso_value cube values 8).toVec3,
          faceNormal sqrt (interpolate iso_value cube values 0).toVec3
            (interpolate iso_value cube values 8).toVec3
            (interpolate iso_value cube values 3).toVec3⟩,
       ⟨(interpolate iso_value cube values 3).toVec3,
          faceNormal sqrt (interpolate iso_value cube values 0).toVec3
            (interpolate iso_value cube values 8).toVec3
            (interpolate iso_value cube values 3).toVec3⟩] := by
  have hcfg : edge_table_lookup iso_value values = 1 :=
    (edge_table_lookup_eq_one_iff _ _).2 ⟨h0, hrest⟩
  unfold PolygonizeCubeValues
  simp only [hcfg, edge_table_one, tri_table_one]
  rw [if_neg (by decide), triangleLoop_single _ _ _ _ _ (by decide) (by decide) (by decide)]
  have e0 := vertex_edges_getD lookup_tables iso_value cube values 1 0 (by decide)
  have e8 := vertex_edges_getD lookup_tables iso_value cube values 1 8 (by decide)
  have e3 := vertex_edges_getD lookup_tables iso_value cube values 1 3 (by decide)
  rw [if_pos ((edgeFlagged_one 0 (by decide)).2 (by decide))] at e0
  rw [if_pos ((edgeFlagged_one 8 (by decide)).2 (by decide))] at e8
  rw [if_pos ((edgeFlagged_one 3 (by decide)).2 (by decide))] at e3
  have t0 : (0 : Int).toNat = 0 := rfl
  have t8 : (8 : Int).toNat = 8 := rfl
  have t3 : (3 : Int).toNat = 3 := rfl
  simp only [triangle, faceNormal, t0, t8, t3, e0, e8, e3]

/-- A cube whose corner 0 has exactly the iso-value and whose other corners
are inside gets one triangle with its three vertices at corner 0 and the
normal `normalize(0)`, which is the zero vector here. -/
theorem PolygonizeCubeValues_corner_zero_on_surface (sqrt : F → F) (iso_value : F)
    (cube : GridCell F) (values : Fin 8 → F) (out : List (Vertex F))
    (h0 : values 0 = iso_value) (hrest : ∀ i : Fin 8, i ≠ 0 → values i < iso_value) :
    PolygonizeCubeValues lookup_tables sqrt iso_value cube values out = out ++
      [⟨(cube.bounds 0).toVec3, ⟨0, 0, 0⟩⟩, ⟨(cube.bounds 0).toVec3, ⟨0, 0, 0⟩⟩,
       ⟨(cube.bounds 0).toVec3, ⟨0, 0, 0⟩⟩] := by
  have hcfg : edge_table_lookup iso_value values = 254 :=
    (edge_table_lookup_eq_254_iff _ _).2 ⟨by rw [h0]; exact lt_irrefl _, hrest⟩
  unfold PolygonizeCubeValues
  simp only [hcfg, edge_table_254, tri_table_254]
  rw [if_neg (by decide), triangleLoop_single _ _ _ _ _ (by decide) (by decide) (by decide)]
  have e0 := vertex_edges_getD lookup_tables iso_value cube values 254 0 (by decide)
  have e8 := vertex_edges_getD lookup_tables iso_value cube values 254 8 (by decide)
  have e3 := vertex_edges_getD lookup_tables iso_value cube values 254 3 (by decide)
  rw [if_pos ((edgeFlagged_254 0 (by decide)).2 (by decide))] at e0
  rw [if_pos ((edgeFlagged_254 8 (by decide)).2 (by decide))] at e8
  rw [if_pos ((edgeFlagged_254 3 (by decide)).2 (by decide))] at e3
  have t0 : (0 : Int).toNat = 0 := rfl
  have t8 : (8 : Int).toNat = 8 := rfl
  have t3 : (3 : Int).toNat = 3 := rfl
  have g0 : edges.getD 0 (0, 0) = (0, 1) := rfl
  have g8 : edges.getD 8 (0, 0) = (0, 4) := rfl
  have g3 : edges.getD 3 (0, 0) = (3, 0) := rfl
  have i0 : interpolate iso_value cube values 0 = cube.bounds 0 := by
    simp only [interpolate, g0]
    simp [h0]
  have i8 : interpolate iso_value cube values 8 = cube.bounds 0 := by
    simp only [interpolate, g8]
    simp [h0]
  have i3 : interpolate iso_value cube values 3 = cube.bounds 0 := by
    have hne : iso_value - values 3 ≠ 0 := sub_ne_zero.2 (ne_of_gt (hrest 3 (by decide)))
    simp only [interpolate, g3]
    simp [h0, div_self hne]
  simp only [triangle, t0, t8, t3, e0, e8, e3, i0, i8, i3]
  simp [vec3.sub, vec3.cross, vec3.normalize, vec3.scale]

/-- A polygonizer with one step on each axis runs `PolygonizeCube` once, on
the cell `(0, 0, 0)`. -/
theorem Polygonize_single_cell (T : LookupTables) (sqrt : F → F) (mc : MarchingCubes F)
    (hx : mc.num_x_steps = 1) (hy : mc.num_y_steps = 1) (hz : mc.num_z_steps = 1)
    (out : List (Vertex F)) :
    mc.Polygonize T sqrt out = mc.PolygonizeCube T sqrt (mc.cell 0 0 0) out := by
  unfold MarchingCubes.Polygonize
  rw [hx, hy, hz]
  have h1 : (1 : Int).toNat = 0 + 1 := rfl
  rw [h1]
  simp only [forLoop_succ]
  simp only [forLoop, List.range_zero, List.foldl_nil]

end SingleTriangle

/-! ## The example inputs -/

theorem cornerZeroInside_spec :
    cornerZeroInside 0 < 0 ∧ ∀ i : Fin 8, i ≠ 0 → ¬ cornerZeroInside i < 0 := by
  refine ⟨by norm_num [cornerZeroInside], fun i hi => ?_⟩
  fin_cases i
  · exact absurd rfl hi
  all_goals norm_num [cornerZeroInside, vec8_five, vec8_six, vec8_seven]

theorem unitRegion_steps :
    unitRegion.num_x_steps = 1 ∧ unitRegion.num_y_steps = 1 ∧ unitRegion.num_z_steps = 1 := by
  simp [unitRegion, MarchingCubes.construct]

theorem unitRegion_sample :
    MarchingCubes.sample (unitRegion.cell 0 0 0) 0 < unitRegion.iso_value
      ∧ ∀ i : Fin 8, i ≠ 0 → ¬ MarchingCubes.sample (unitRegion.cell 0 0 0) i < unitRegion.iso_value := by
  refine ⟨by norm_num [unitRegion, MarchingCubes.construct, MarchingCubes.sample,
    MarchingCubes.cell, MarchingCubes.SphereFuntion], fun i hi => ?_⟩
  fin_cases i
  · exact absurd rfl hi
  all_goals norm_num [unitRegion, MarchingCubes.construct, MarchingCubes.sample,
    MarchingCubes.cell, MarchingCubes.SphereFuntion, vec8_five, vec8_six, vec8_seven]

/-- The output of `Polygonize` on `unitRegion`: one triangle. -/
theorem unitRegion_Polygonize (sqrt : ℚ → ℚ) :
    ∃ v1 v2 v3 : Vertex ℚ, unitRegion.Polygonize lookup_tables sqrt [] = [v1, v2, v3] := by
  rw [Polygonize_single_cell _ _ _ unitRegion_steps.1 unitRegion_steps.2.1 unitRegion_steps.2.2]
  unfold MarchingCubes.PolygonizeCube
  rw [PolygonizeCubeValues_only_corner_zero_inside _ _ _ _ _ unitRegion_sample.1
    unitRegion_sample.2]
  exact ⟨_, _, _, rfl⟩

/-! ## Cubes outside the surface, and the normal over the reals -/

section Outside

variable {F : Type} [LinearOrderedField F]

theorem PolygonizeCubeValues_all_outside (sqrt : F → F) (iso_value : F) (cube : GridCell F)
    (values : Fin 8 → F) (out : List (Vertex F)) (h : ∀ i, ¬ values i < iso_value) :
    PolygonizeCubeValues lookup_tables sqrt iso_value cube values out = out := by
  have hcfg : edge_table_lookup iso_value values = 0 := (edge_table_lookup_eq_zero_iff _ _).2 h
  unfold PolygonizeCubeValues
  simp only [hcfg]
  rw [if_pos ((edge_table_eq_zero_iff 0 (by decide)).2 (Or.inl rfl))]

end Outside

section RealNormal

theorem cross_dot_left {F : Type} [Field F] (u v : vec3 F) :
    vec3.dot (vec3.cross u v) u = 0 ∧ vec3.dot (vec3.cross u v) v = 0 := by
  constructor <;> simp only [vec3.dot, vec3.cross] <;> ring

theorem dot_self_pos (c : vec3 ℝ) (h : c ≠ ⟨0, 0, 0⟩) : 0 < vec3.dot c c := by
  have hne : c.x ≠ 0 ∨ c.y ≠ 0 ∨ c.z ≠ 0 := by
    by_contra hcon
    push_neg at hcon
    apply h
    cases c
    simp_all
  simp only [vec3.dot]
  rcases hne with hx | hy | hz
  · nlinarith [mul_self_pos.2 hx, mul_self_nonneg c.y, mul_self_nonneg c.z]
  · nlinarith [mul_self_pos.2 hy, mul_self_nonneg c.x, mul_self_nonneg c.z]
  · nlinarith [mul_self_pos.2 hz, mul_self_nonneg c.x, mul_self_nonneg c.y]

/-- Over the reals, the normal of a triangle whose cross product is not the
zero vector has length 1 and is perpendicular to both edge vectors. -/
theorem faceNormal_unit_perpendicular (p1 p2 p3 : vec3 ℝ)
    (h : vec3.cross (vec3.sub p2 p1) (vec3.sub p3 p1) ≠ ⟨0, 0, 0⟩) :
    vec3.dot (faceNormal Real.sqrt p1 p2 p3) (faceNormal Real.sqrt p1 p2 p3) = 1
      ∧ vec3.dot (faceNormal Real.sqrt p1 p2 p3) (vec3.sub p2 p1) = 0
      ∧ vec3.dot (faceNormal Real.sqrt p1 p2 p3) (vec3.sub p3 p1) = 0 := by
  have hpos := dot_self_pos _ h
  obtain ⟨hu, hv⟩ := cross_dot_left (vec3.sub p2 p1) (vec3.sub p3 p1)
  set c := vec3.cross (vec3.sub p2 p1) (vec3.sub p3 p1) with hc
  have hs : Real.sqrt (vec3.dot c c) * Real.sqrt (vec3.dot c c) = vec3.dot c c :=
    Real.mul_self_sqrt hpos.le
  have hs0 : Real.sqrt (vec3.dot c c) ≠ 0 := (Real.sqrt_pos.2 hpos).ne'
  have hk : (1 / Real.sqrt (vec3.dot c c)) * (1 / Real.sqrt (vec3.dot c c)) * vec3.dot c c = 1 := by
    rw [one_div, ← mul_inv, hs, inv_mul_cancel₀ hpos.ne']
  refine ⟨?_, ?_, ?_⟩
  · have : vec3.dot (faceNormal Real.sqrt p1 p2 p3) (faceNormal Real.sqrt p1 p2 p3)
        = (1 / Real.sqrt (vec3.dot c c)) * (1 / Real.sqrt (vec3.dot c c)) * vec3.dot c c := by
      simp only [faceNormal, vec3.normalize, vec3.scale, vec3.inversesqrt, ← hc, vec3.dot]
      ring
    rw [this, hk]
  · have : vec3.dot (faceNormal Real.sqrt p1 p2 p3) (vec3.sub p2 p1)
        = (1 / Real.sqrt (vec3.dot c c)) * vec3.dot c (vec3.sub p2 p1) := by
      simp only [faceNormal, vec3.normalize, vec3.scale, vec3.inversesqrt, ← hc, vec3.dot]
      ring
    rw [this, hu, mul_zero]
  · have : vec3.dot (faceNormal Real.sqrt p1 p2 p3) (vec3.sub p3 p1)
        = (1 / Real.sqrt (vec3.dot c c)) * vec3.dot c (vec3.sub p3 p1) := by
      simp only [faceNormal, vec3.normalize, vec3.scale, vec3.inversesqrt, ← hc, vec3.dot]
      ring
    rw [this, hv, mul_zero]

end RealNormal

/-! ## Entries of the tables -/

section TableEntries

set_option maxRecDepth 100000 in
theorem edge_table_bit_iff :
    ∀ c < 256, ∀ e < 12,
      ((lookup_tables.edge_table.getD c 0).testBit e = true
          ↔ c.testBit (edges.getD e (0, 0)).1.val ≠ c.testBit (edges.getD e (0, 0)).2.val)
        ∧ (edgeFlagged lookup_tables c e = (lookup_tables.edge_table.getD c 0).testBit e) := by
  decide

set_option maxRecDepth 100000 in
theorem tri_table_entries_flagged :
    ∀ c < 256, ∀ j < triangleCount (lookup_tables.tri_table.getD c []), ∀ t < 3,
      0 ≤ (lookup_tables.tri_table.getD c []).getD (3 * j + t) (-1)
        ∧ (lookup_tables.tri_table.getD c []).getD (3 * j + t) (-1) < 12
        ∧ edgeFlagged lookup_tables c
            ((lookup_tables.tri_table.getD c []).getD (3 * j + t) (-1)).toNat = true := by
  decide

end TableEntries

/-! ## The triangle loop -/

section TriangleLoop
variable {F : Type} [LinearOrderedField F]

end TriangleLoop

/-! ## Flagged edges in terms of the corner values -/

section FlaggedEdges

variable {F : Type} [LinearOrderedField F]

end FlaggedEdges

/-! ## The methods on the pair of object and vector -/

section State

variable {F : Type} [LinearOrderedField F]

theorem triangleLoopSt_eq (sqrt : F → F) (row : List Int) (ve : List (Point F)) (is : List Nat)
    (s : MarchingCubes F × List (Vertex F)) :
    triangleLoopSt sqrt row ve is s = (s.1, triangleLoop sqrt row ve is s.2) := by
  induction is generalizing s with
  | nil => rfl
  | cons i rest ih =>
    simp only [triangleLoopSt, triangleLoop]
    split
    · rfl
    · rw [ih]
      simp [triangle, push_back]

theorem PolygonizeCubeSt_eq (T : LookupTables) (sqrt : F → F) (cube : GridCell F)
    (s : MarchingCubes F × List (Vertex F)) :
    PolygonizeCubeSt T sqrt cube s = (s.1, s.1.PolygonizeCube T sqrt cube s.2) := by
  unfold PolygonizeCubeSt MarchingCubes.PolygonizeCube PolygonizeCubeValues
  simp only
  split
  · rfl
  · exact triangleLoopSt_eq _ _ _ _ _

theorem forLoopSt_pair_aux {α β : Type} (b : α → Int) (a : α) (g : Nat → β → β)
    (body : Nat → α × β → α × β) (hbody : ∀ i t, body i (a, t) = (a, g i t)) :
    ∀ (fuel i : Nat) (t : β), (b a).toNat - i ≤ fuel →
      forLoopSt (fun s => b s.1) body fuel i (a, t)
        = (a, (List.range' i ((b a).toNat - i)).foldl (fun acc k => g k acc) t) := by
  intro fuel
  induction fuel with
  | zero =>
    intro i t h
    have h0 : (b a).toNat - i = 0 := Nat.le_zero.1 h
    rw [h0]
    rfl
  | succ fuel ih =>
    intro i t h
    simp only [forLoopSt]
    by_cases hlt : (i : Int) < b a
    · rw [if_pos hlt, hbody, ih (i + 1) (g i t) (by omega)]
      have hn : (b a).toNat - i = ((b a).toNat - (i + 1)) + 1 := by omega
      rw [hn, List.range'_succ]
      rfl
    · rw [if_neg hlt]
      have h0 : (b a).toNat - i = 0 := by omega
      rw [h0]
      rfl

theorem forLoopSt_pair {α β : Type} (b : α → Int) (a : α) (g : Nat → β → β)
    (body : Nat → α × β → α × β) (hbody : ∀ i t, body i (a, t) = (a, g i t))
    (fuel : Nat) (t : β) (h : (b a).toNat ≤ fuel) :
    forLoopSt (fun s => b s.1) body fuel 0 (a, t) = (a, forLoop (b a).toNat g t) := by
  rw [forLoopSt_pair_aux b a g body hbody fuel 0 t (by omega), Nat.sub_zero, forLoop,
    List.range_eq_range']

theorem PolygonizeSt_eq (T : LookupTables) (sqrt : F → F) (mc : MarchingCubes F)
    (out : List (Vertex F)) (fuel : Nat) (hx : mc.num_x_steps.toNat ≤ fuel)
    (hy : mc.num_y_steps.toNat ≤ fuel) (hz : mc.num_z_steps.toNat ≤ fuel) :
    PolygonizeSt T sqrt fuel (mc, out) = (mc, mc.Polygonize T sqrt out) := by
  unfold PolygonizeSt MarchingCubes.Polygonize
  refine forLoopSt_pair (fun m : MarchingCubes F => m.num_z_steps) mc _ _ (fun z t => ?_) fuel out hz
  refine forLoopSt_pair (fun m : MarchingCubes F => m.num_y_steps) mc _ _ (fun y t => ?_) fuel t hy
  refine forLoopSt_pair (fun m : MarchingCubes F => m.num_x_steps) mc _ _ (fun x t => ?_) fuel t hx
  exact PolygonizeCubeSt_eq T sqrt _ (mc, t)

end State

/-! ## The claims -/

section Claims

variable {F : Type} [LinearOrderedField F]

/-- C1: `Polygonize` returns the given sequence followed by the outputs of
`PolygonizeCube`, each run on the empty sequence, of the cells of the grid in
the order `cellOrder` (z outermost, then y, then x innermost); that order
lists exactly the cells `(x, y, z)` below the three step counts and is
strictly increasing, so every cell occurs once. -/
theorem Polygonize_eq_append_cells (T : LookupTables) (sqrt : F → F) (mc : MarchingCubes F)
    (out : List (Vertex F)) :
    mc.Polygonize T sqrt out = out ++
        (cellOrder mc.num_x_steps.toNat mc.num_y_steps.toNat mc.num_z_steps.toNat).flatMap
          (fun c => mc.PolygonizeCube T sqrt (mc.cell c.1 c.2.1 c.2.2) [])
      ∧ (∀ x y z : Nat,
          (x, y, z) ∈ cellOrder mc.num_x_steps.toNat mc.num_y_steps.toNat mc.num_z_steps.toNat
            ↔ (x : Int) < mc.num_x_steps ∧ (y : Int) < mc.num_y_steps ∧ (z : Int) < mc.num_z_steps)
      ∧ (cellOrder mc.num_x_steps.toNat mc.num_y_steps.toNat mc.num_z_steps.toNat).Pairwise
          cellBefore
      ∧ (cellOrder mc.num_x_steps.toNat mc.num_y_steps.toNat mc.num_z_steps.toNat).Nodup := by
  refine ⟨?_, ?_, cellOrder_pairwise _ _ _, ?_⟩
  · rw [cellOrder_flatMap]
    exact Polygonize_eq_flatMap T sqrt mc out
  · intro x y z
    rw [mem_cellOrder, Int.lt_toNat, Int.lt_toNat, Int.lt_toNat]
  · refine (cellOrder_pairwise _ _ _).imp fun {a b} h hab => ?_
    subst hab
    rcases h with h | ⟨_, h | ⟨_, h⟩⟩ <;> exact lt_irrefl _ h


/-- C2: for a positive resolution the constructor stores, on each axis
independently, the ceiling of `(max - min) / resolution` as the step count
(the least integer `k` with `max - min ≤ k * resolution`), and stores
`start_pt = min_pt`, the given resolution and `iso_value = 0`. -/
theorem construct_stores_ceil [FloorRing F] (min_pt max_pt : Point F) (resolution : F)
    (hres : 0 < resolution) :
    (MarchingCubes.construct min_pt max_pt resolution).num_x_steps
        = ⌈(max_pt.x - min_pt.x) / resolution⌉
      ∧ (MarchingCubes.construct min_pt max_pt resolution).num_y_steps
        = ⌈(max_pt.y - min_pt.y) / resolution⌉
      ∧ (MarchingCubes.construct min_pt max_pt resolution).num_z_steps
        = ⌈(max_pt.z - min_pt.z) / resolution⌉
      ∧ (MarchingCubes.construct min_pt max_pt resolution).start_pt = min_pt
      ∧ (MarchingCubes.construct min_pt max_pt resolution).resolution = resolution
      ∧ (MarchingCubes.construct min_pt max_pt resolution).iso_value = 0
      ∧ ∀ k : Int,
          ((MarchingCubes.construct min_pt max_pt resolution).num_x_steps ≤ k
            ↔ max_pt.x - min_pt.x ≤ k * resolution)
          ∧ ((MarchingCubes.construct min_pt max_pt resolution).num_y_steps ≤ k
            ↔ max_pt.y - min_pt.y ≤ k * resolution)
          ∧ ((MarchingCubes.construct min_pt max_pt resolution).num_z_steps ≤ k
            ↔ max_pt.z - min_pt.z ≤ k * resolution) := by
  refine ⟨rfl, rfl, rfl, rfl, rfl, rfl, fun k => ⟨?_, ?_, ?_⟩⟩ <;>
    simp only [MarchingCubes.construct, Int.ceil_le, div_le_iff₀ hres]

/-- Witness of C2: the region `[-5/4, 5/4]³` of `main.cpp` at resolution
`1/10` gets 25 steps along x. -/
theorem construct_stores_ceil_witness :
    (0 : ℚ) < 1 / 10
      ∧ (MarchingCubes.construct (⟨-5/4, -5/4, -5/4⟩ : Point ℚ) ⟨5/4, 5/4, 5/4⟩ (1 / 10)).num_x_steps
          = 25 := by
  refine ⟨by norm_num, ?_⟩
  have h := (construct_stores_ceil (⟨-5/4, -5/4, -5/4⟩ : Point ℚ) ⟨5/4, 5/4, 5/4⟩ (1 / 10)
    (by norm_num)).2.2.2.2.2.2
  have h25 := ((h 25).1).2 (by norm_num)
  have h24 := mt ((h 24).1).1 (by norm_num)
  omega

/-- C3: the configuration index of `PolygonizeCube` is below 256, its bit `i`
is set exactly when `values[i] < iso_value`, and it is a valid index of both
tables of 256 entries. -/
theorem edge_table_lookup_bits (iso_value : F) (values : Fin 8 → F) :
    edge_table_lookup iso_value values < 256
      ∧ (∀ i : Fin 8,
          (edge_table_lookup iso_value values).testBit i.val = true ↔ values i < iso_value)
      ∧ edge_table_lookup iso_value values < lookup_tables.edge_table.length
      ∧ edge_table_lookup iso_value values < lookup_tables.tri_table.length := by
  refine ⟨edge_table_lookup_lt _ _, fun i => ?_, ?_, ?_⟩
  · rw [edge_table_lookup_testBit]
    simp
  · rw [edge_table_length]
    exact edge_table_lookup_lt _ _
  · rw [tri_table_length]
    exact edge_table_lookup_lt _ _

/-- C4: `PolygonizeCube` appends nothing when the configuration is 0 (no
corner inside) or 255 (every corner inside), and 0 and 255 are the only two
of the 256 configurations whose `edge_table` entry is 0, so the early return
is taken exactly for them. -/
theorem PolygonizeCubeValues_all_out_or_in (sqrt : F → F) (iso_value : F) (cube : GridCell F)
    (values : Fin 8 → F) (out : List (Vertex F)) :
    ((∀ i, ¬ values i < iso_value) ↔ edge_table_lookup iso_value values = 0)
      ∧ ((∀ i, values i < iso_value) ↔ edge_table_lookup iso_value values = 255)
      ∧ (edge_table_lookup iso_value values = 0 ∨ edge_table_lookup iso_value values = 255 →
          PolygonizeCubeValues lookup_tables sqrt iso_value cube values out = out)
      ∧ (lookup_tables.edge_table.getD (edge_table_lookup iso_value values) 0 = 0
          ↔ edge_table_lookup iso_value values = 0 ∨ edge_table_lookup iso_value values = 255)
      ∧ ∀ c : Nat, c < 256 →
          (lookup_tables.edge_table.getD c 0 = 0 ↔ c = 0 ∨ c = 255) := by
  have hiff := edge_table_eq_zero_iff _ (edge_table_lookup_lt iso_value values)
  refine ⟨(edge_table_lookup_eq_zero_iff _ _).symm, (edge_table_lookup_eq_255_iff _ _).symm,
    fun h => ?_, hiff, edge_table_eq_zero_iff⟩
  unfold PolygonizeCubeValues
  simp only [hiff.2 h, if_true]

/-- Witness of C4: a cube with the value 1 at every corner has configuration
0 and leaves the output as it was. -/
theorem PolygonizeCubeValues_all_out_or_in_witness :
    PolygonizeCubeValues lookup_tables (fun q : ℚ => q) 0 ⟨fun _ => ⟨0, 0, 0⟩⟩ (fun _ => 1) []
      = [] := by
  have h := PolygonizeCubeValues_all_out_or_in (fun q : ℚ => q) 0 ⟨fun _ => ⟨0, 0, 0⟩⟩
    (fun _ => 1) []
  exact h.2.2.1 (Or.inl (h.1.1 (fun _ => by norm_num)))

/-- C5: in a cell built by `Polygonize` with a positive resolution, for any
corner values, the crossing point computed for an edge flagged by
`edge_table[config]` lies in the cell: each coordinate is between that of
corner 0 and that of corner 6. -/
theorem crossing_point_in_cell (mc : MarchingCubes F) (hres : 0 < mc.resolution) (x y z : Nat)
    (values : Fin 8 → F) (e : Nat) (he : e < 12)
    (hflag : edgeFlagged lookup_tables (edge_table_lookup mc.iso_value values) e = true) :
    ((mc.cell x y z).bounds 0).x
        ≤ ((vertex_edges lookup_tables mc.iso_value (mc.cell x y z) values
            (edge_table_lookup mc.iso_value values)).getD e ⟨0, 0, 0⟩).x
      ∧ ((vertex_edges lookup_tables mc.iso_value (mc.cell x y z) values
            (edge_table_lookup mc.iso_value values)).getD e ⟨0, 0, 0⟩).x
        ≤ ((mc.cell x y z).bounds 6).x
      ∧ ((mc.cell x y z).bounds 0).y
        ≤ ((vertex_edges lookup_tables mc.iso_value (mc.cell x y z) values
            (edge_table_lookup mc.iso_value values)).getD e ⟨0, 0, 0⟩).y
      ∧ ((vertex_edges lookup_tables mc.iso_value (mc.cell x y z) values
            (edge_table_lookup mc.iso_value values)).getD e ⟨0, 0, 0⟩).y
        ≤ ((mc.cell x y z).bounds 6).y
      ∧ ((mc.cell x y z).bounds 0).z
        ≤ ((vertex_edges lookup_tables mc.iso_value (mc.cell x y z) values
            (edge_table_lookup mc.iso_value values)).getD e ⟨0, 0, 0⟩).z
      ∧ ((vertex_edges lookup_tables mc.iso_value (mc.cell x y z) values
            (edge_table_lookup mc.iso_value values)).getD e ⟨0, 0, 0⟩).z
        ≤ ((mc.cell x y z).bounds 6).z := by
  rw [vertex_edges_getD _ _ _ _ _ _ he, if_pos hflag]
  have hbits := edgeFlagged_testBit _ (edge_table_lookup_lt mc.iso_value values) e he hflag
  rw [edge_table_lookup_testBit, edge_table_lookup_testBit] at hbits
  obtain ⟨_, ht0, ht1⟩ := fraction_mem_unit hbits
  have h1 := cell_bounds_between mc hres x y z (edges.getD e (0, 0)).1
  have h2 := cell_bounds_between mc hres x y z (edges.getD e (0, 0)).2
  obtain ⟨hx, hx'⟩ := lerp_between ht0 ht1 h1.1 h1.2.1 h2.1 h2.2.1
  obtain ⟨hy, hy'⟩ := lerp_between ht0 ht1 h1.2.2.1 h1.2.2.2.1 h2.2.2.1 h2.2.2.2.1
  obtain ⟨hz, hz'⟩ := lerp_between ht0 ht1 h1.2.2.2.2.1 h1.2.2.2.2.2 h2.2.2.2.2.1 h2.2.2.2.2.2
  exact ⟨hx, hx', hy, hy', hz, hz'⟩

/-- Witness of C5: in the single cell of `unitRegion`, with only corner 0
inside, the crossing point of edge 0 is not left of corner 0. -/
theorem crossing_point_in_cell_witness :
    0 < unitRegion.resolution
      ∧ edgeFlagged lookup_tables (edge_table_lookup unitRegion.iso_value cornerZeroInside) 0
          = true
      ∧ ((unitRegion.cell 0 0 0).bounds 0).x
          ≤ ((vertex_edges lookup_tables unitRegion.iso_value (unitRegion.cell 0 0 0)
              cornerZeroInside
              (edge_table_lookup unitRegion.iso_value cornerZeroInside)).getD 0 ⟨0, 0, 0⟩).x := by
  have hres : 0 < unitRegion.resolution := by
    norm_num [unitRegion, MarchingCubes.construct]
  have hcfg : edge_table_lookup unitRegion.iso_value cornerZeroInside = 1 :=
    (edge_table_lookup_eq_one_iff _ _).2 cornerZeroInside_spec
  have hflag : edgeFlagged lookup_tables
      (edge_table_lookup unitRegion.iso_value cornerZeroInside) 0 = true := by
    rw [hcfg]
    exact (edgeFlagged_one 0 (by decide)).2 (Or.inl rfl)
  exact ⟨hres, hflag,
    (crossing_point_in_cell unitRegion hres 0 0 0 cornerZeroInside 0 (by decide) hflag).1⟩

/-- C6: the part that `Polygonize` appends to the given sequence has a number
of vertices that is a multiple of 3, and the vertices at positions `3k`,
`3k+1` and `3k+2` of it have the same normal. -/
theorem Polygonize_triples_share_normal (T : LookupTables) (sqrt : F → F) (mc : MarchingCubes F)
    (out : List (Vertex F)) :
    mc.Polygonize T sqrt out = out ++ (mc.Polygonize T sqrt out).drop out.length
      ∧ ((mc.Polygonize T sqrt out).drop out.length).length % 3 = 0
      ∧ ∀ (k : Nat) (v1 v2 v3 : Vertex F),
          ((mc.Polygonize T sqrt out).drop out.length)[3 * k]? = some v1 →
          ((mc.Polygonize T sqrt out).drop out.length)[3 * k + 1]? = some v2 →
          ((mc.Polygonize T sqrt out).drop out.length)[3 * k + 2]? = some v3 →
          v1.normal = v2.normal ∧ v2.normal = v3.normal := by
  obtain ⟨ts, hts⟩ := Polygonize_isTriangleList T sqrt mc out
  refine ⟨?_, ?_, ?_⟩
  · rw [Polygonize_drop, ← Polygonize_eq_flatMap]
  · rw [hts, flatTriangle_flatMap_length]
    omega
  · rw [hts]
    exact flatTriangle_flatMap_getElem? ts

/-- Witness of C6: `unitRegion` gives three vertices, all with one normal. -/
theorem Polygonize_triples_share_normal_witness :
    ∃ v1 v2 v3 : Vertex ℚ,
      unitRegion.Polygonize lookup_tables (fun q => q) [] = [v1, v2, v3]
        ∧ v1.normal = v2.normal ∧ v2.normal = v3.normal := by
  obtain ⟨v1, v2, v3, h⟩ := unitRegion_Polygonize (fun q => q)
  refine ⟨v1, v2, v3, h, ?_⟩
  exact (Polygonize_triples_share_normal lookup_tables (fun q => q) unitRegion []).2.2 0 v1 v2 v3
    (by rw [h]; rfl) (by rw [h]; rfl) (by rw [h]; rfl)

/-- C7, evaluated where it fails: over the reals, on the region from
`(-1/3, -2/3, -2/3)` to `(0, -1/3, -1/3)` at resolution `1/3`, corner 0 of the
single cell lies on the unit sphere and the other seven corners are inside;
`Polygonize` emits one triangle whose three positions are corner 0 and whose
normal is `normalize` of the zero vector, the product of the zero vector and
`1 / sqrt 0`: its squared length is 0, not 1 (IEEE arithmetic gives NaN). -/
theorem Polygonize_degenerate_normal :
    (MarchingCubes.construct (⟨-1/3, -2/3, -2/3⟩ : Point ℝ) ⟨0, -1/3, -1/3⟩ (1/3)).Polygonize
        lookup_tables Real.sqrt []
      = [⟨⟨-1/3, -2/3, -2/3⟩, ⟨0, 0, 0⟩⟩, ⟨⟨-1/3, -2/3, -2/3⟩, ⟨0, 0, 0⟩⟩,
         ⟨⟨-1/3, -2/3, -2/3⟩, ⟨0, 0, 0⟩⟩]
      ∧ ((MarchingCubes.construct (⟨-1/3, -2/3, -2/3⟩ : Point ℝ) ⟨0, -1/3, -1/3⟩
            (1/3)).Polygonize lookup_tables Real.sqrt []).map
          (fun v => vec3.dot v.normal v.normal) = [0, 0, 0] := by
  have hx : (MarchingCubes.construct (⟨-1/3, -2/3, -2/3⟩ : Point ℝ) ⟨0, -1/3, -1/3⟩
      (1/3)).num_x_steps = 1 := by
    simp only [MarchingCubes.construct]
    norm_num
  have hy : (MarchingCubes.construct (⟨-1/3, -2/3, -2/3⟩ : Point ℝ) ⟨0, -1/3, -1/3⟩
      (1/3)).num_y_steps = 1 := by
    simp only [MarchingCubes.construct]
    norm_num
  have hz : (MarchingCubes.construct (⟨-1/3, -2/3, -2/3⟩ : Point ℝ) ⟨0, -1/3, -1/3⟩
      (1/3)).num_z_steps = 1 := by
    simp only [MarchingCubes.construct]
    norm_num
  have hval : (MarchingCubes.construct (⟨-1/3, -2/3, -2/3⟩ : Point ℝ) ⟨0, -1/3, -1/3⟩
        (1/3)).Polygonize lookup_tables Real.sqrt []
      = [⟨⟨-1/3, -2/3, -2/3⟩, ⟨0, 0, 0⟩⟩, ⟨⟨-1/3, -2/3, -2/3⟩, ⟨0, 0, 0⟩⟩,
         ⟨⟨-1/3, -2/3, -2/3⟩, ⟨0, 0, 0⟩⟩] := by
    rw [Polygonize_single_cell _ _ _ hx hy hz]
    unfold MarchingCubes.PolygonizeCube
    rw [PolygonizeCubeValues_corner_zero_on_surface]
    · simp [MarchingCubes.cell, MarchingCubes.construct, Point.toVec3]
    · simp [MarchingCubes.sample, MarchingCubes.cell, MarchingCubes.construct,
        MarchingCubes.SphereFuntion]
      norm_num
    · intro i hi
      fin_cases i
      · exact absurd rfl hi
      all_goals
        simp [MarchingCubes.sample, MarchingCubes.cell, MarchingCubes.construct,
          MarchingCubes.SphereFuntion, vec8_five, vec8_six, vec8_seven]
        norm_num
  refine ⟨hval, ?_⟩
  rw [hval]
  simp [vec3.dot]

/-- C8: for a cube in which only corner 0 is inside, the configuration is 1,
`edge_table[1]` flags the edges 0, 3 and 8, `tri_table[1]` lists them as
0, 8, 3, and `PolygonizeCube` appends exactly three vertices. Their positions
are, in this order, the point of edge 0 between the corners 0 and 1, the
point of edge 8 between the corners 0 and 4, and the point of edge 3 between
the corners 3 and 0, each at the fraction `(iso_value - values[a]) /
(values[b] - values[a])` from its first corner `a` to its second corner `b`;
the three fractions lie in `[0, 1]`. -/
theorem PolygonizeCubeValues_config_one (sqrt : F → F) (iso_value : F) (cube : GridCell F)
    (values : Fin 8 → F) (out : List (Vertex F))
    (h0 : values 0 < iso_value) (hrest : ∀ i : Fin 8, i ≠ 0 → ¬ values i < iso_value) :
    edge_table_lookup iso_value values = 1
      ∧ (∀ e : Nat, e < 12 → (edgeFlagged lookup_tables 1 e = true ↔ e = 0 ∨ e = 3 ∨ e = 8))
      ∧ lookup_tables.tri_table.getD 1 []
          = [0, 8, 3, -1, -1, -1, -1, -1, -1, -1, -1, -1, -1, -1, -1, -1]
      ∧ (PolygonizeCubeValues lookup_tables sqrt iso_value cube values out).length
          = out.length + 3
      ∧ PolygonizeCubeValues lookup_tables sqrt iso_value cube values out = out ++
          (PolygonizeCubeValues lookup_tables sqrt iso_value cube values out).drop out.length
      ∧ ((PolygonizeCubeValues lookup_tables sqrt iso_value cube values out).drop
            out.length).map Vertex.position
          = [⟨(cube.bounds 0).x + (iso_value - values 0) / (values 1 - values 0)
                * ((cube.bounds 1).x - (cube.bounds 0).x),
              (cube.bounds 0).y + (iso_value - values 0) / (values 1 - values 0)
                * ((cube.bounds 1).y - (cube.bounds 0).y),
              (cube.bounds 0).z + (iso_value - values 0) / (values 1 - values 0)
                * ((cube.bounds 1).z - (cube.bounds 0).z)⟩,
             ⟨(cube.bounds 0).x + (iso_value - values 0) / (values 4 - values 0)
                * ((cube.bounds 4).x - (cube.bounds 0).x),
              (cube.bounds 0).y + (iso_value - values 0) / (values 4 - values 0)
                * ((cube.bounds 4).y - (cube.bounds 0).y),
              (cube.bounds 0).z + (iso_value - values 0) / (values 4 - values 0)
                * ((cube.bounds 4).z - (cube.bounds 0).z)⟩,
             ⟨(cube.bounds 3).x + (iso_value - values 3) / (values 0 - values 3)
                * ((cube.bounds 0).x - (cube.bounds 3).x),
              (cube.bounds 3).y + (iso_value - values 3) / (values 0 - values 3)
                * ((cube.bounds 0).y - (cube.bounds 3).y),
              (cube.bounds 3).z + (iso_value - values 3) / (values 0 - values 3)
                * ((cube.bounds 0).z - (cube.bounds 3).z)⟩]
      ∧ (0 ≤ (iso_value - values 0) / (values 1 - values 0)
          ∧ (iso_value - values 0) / (values 1 - values 0) ≤ 1)
      ∧ (0 ≤ (iso_value - values 0) / (values 4 - values 0)
          ∧ (iso_value - values 0) / (values 4 - values 0) ≤ 1)
      ∧ (0 ≤ (iso_value - values 3) / (values 0 - values 3)
          ∧ (iso_value - values 3) / (values 0 - values 3) ≤ 1) := by
  have h := PolygonizeCubeValues_only_corner_zero_inside sqrt iso_value cube values out h0 hrest
  have g0 : edges.getD 0 (0, 0) = (0, 1) := rfl
  have g8 : edges.getD 8 (0, 0) = (0, 4) := rfl
  have g3 : edges.getD 3 (0, 0) = (3, 0) := rfl
  have d1 : decide (values 0 < iso_value) ≠ decide (values 1 < iso_value) := by
    simp [h0, hrest 1 (by decide)]
  have d4 : decide (values 0 < iso_value) ≠ decide (values 4 < iso_value) := by
    simp [h0, hrest 4 (by decide)]
  have d3 : decide (values 3 < iso_value) ≠ decide (values 0 < iso_value) := by
    simp [h0, hrest 3 (by decide)]
  refine ⟨(edge_table_lookup_eq_one_iff _ _).2 ⟨h0, hrest⟩, edgeFlagged_one, tri_table_one,
    ?_, ?_, ?_, (fraction_mem_unit d1).2, (fraction_mem_unit d4).2, (fraction_mem_unit d3).2⟩
  · rw [h]
    simp
  · rw [h, List.drop_left]
  · rw [h, List.drop_left]
    simp only [List.map_cons, List.map_nil, interpolate, g0, g8, g3, Point.toVec3]

/-- Witness of C8: in the cell of `unitRegion` with the corner values
`-1, 1, 1, 1, 1, 1, 1, 1` and iso-value 0, the three vertices are the
midpoints of the edges from corner 0 along x, z and y. -/
theorem PolygonizeCubeValues_config_one_witness :
    (PolygonizeCubeValues lookup_tables (fun q : ℚ => q) 0 (unitRegion.cell 0 0 0)
        cornerZeroInside []).map Vertex.position
      = [⟨1 / 2, 0, 0⟩, ⟨0, 0, 1 / 2⟩, ⟨0, 1 / 2, 0⟩] := by
  have h := (PolygonizeCubeValues_config_one (fun q : ℚ => q) 0 (unitRegion.cell 0 0 0)
    cornerZeroInside [] cornerZeroInside_spec.1 cornerZeroInside_spec.2).2.2.2.2.2.1
  rw [List.length_nil, List.drop_zero] at h
  rw [h]
  norm_num [unitRegion, MarchingCubes.construct, MarchingCubes.cell, cornerZeroInside]

/-- C9: when the field is strictly positive at every corner of every cell of
the grid of a region and a positive resolution, `Polygonize` appends nothing:
it returns the sequence it was given, and the empty sequence when started on
it. -/
theorem Polygonize_outside_empty [FloorRing F] (sqrt : F → F) (min_pt max_pt : Point F)
    (resolution : F) (_hres : 0 < resolution)
    (hout : ∀ x y z : Nat,
      (x : Int) < (MarchingCubes.construct min_pt max_pt resolution).num_x_steps →
      (y : Int) < (MarchingCubes.construct min_pt max_pt resolution).num_y_steps →
      (z : Int) < (MarchingCubes.construct min_pt max_pt resolution).num_z_steps →
      ∀ i : Fin 8,
        0 < MarchingCubes.sample ((MarchingCubes.construct min_pt max_pt resolution).cell x y z) i) :
    (∀ out : List (Vertex F),
        (MarchingCubes.construct min_pt max_pt resolution).Polygonize lookup_tables sqrt out = out)
      ∧ (MarchingCubes.construct min_pt max_pt resolution).Polygonize lookup_tables sqrt [] = [] := by
  have key : ∀ out : List (Vertex F),
      (MarchingCubes.construct min_pt max_pt resolution).Polygonize lookup_tables sqrt out
        = out := by
    intro out
    rw [Polygonize_eq_flatMap]
    refine (List.append_right_eq_self).2 ?_
    simp only [List.flatMap_eq_nil_iff, List.mem_range, Int.lt_toNat]
    intro z hz y hy x hx
    unfold MarchingCubes.PolygonizeCube
    apply PolygonizeCubeValues_all_outside
    intro i
    have h0 : (MarchingCubes.construct min_pt max_pt resolution).iso_value = 0 := rfl
    rw [h0]
    exact not_lt.2 (hout x y z hx hy hz i).le
  exact ⟨key, key []⟩

/-- Witness of C9: the unit-sphere field on the region `[2, 3]³` at
resolution `1/2` gives the empty sequence. -/
theorem Polygonize_outside_empty_witness :
    (MarchingCubes.construct (⟨2, 2, 2⟩ : Point ℚ) ⟨3, 3, 3⟩ (1 / 2)).Polygonize lookup_tables
      (fun q => q) [] = [] := by
  refine (Polygonize_outside_empty (fun q => q) (⟨2, 2, 2⟩ : Point ℚ) ⟨3, 3, 3⟩ (1 / 2)
    (by norm_num) ?_).2
  intro x y z hx hy hz i
  have h2 : ⌈((3 : ℚ) - 2) / (1 / 2)⌉ = 2 := by norm_num
  simp only [MarchingCubes.construct, h2] at hx hy hz
  have hx' : x < 2 := by omega
  have hy' : y < 2 := by omega
  have hz' : z < 2 := by omega
  interval_cases x <;> interval_cases y <;> interval_cases z <;> fin_cases i <;>
    norm_num [MarchingCubes.sample, MarchingCubes.cell, MarchingCubes.construct,
      MarchingCubes.SphereFuntion, vec8_five, vec8_six, vec8_seven]

set_option maxRecDepth 100000 in
/-- C10: the crossed-edge set is the same for a configuration and its
complement: `edge_table[c] = edge_table[255 - c]` for every `c` in 0..255. -/
theorem edge_table_complement :
    ∀ c : Nat, c < 256 →
      lookup_tables.edge_table.getD c 0 = lookup_tables.edge_table.getD (255 - c) 0 := by
  decide

/-- Witness of C10: configurations 1 and 254 have the same entry. -/
theorem edge_table_complement_witness :
    1 < 256 ∧ lookup_tables.edge_table.getD 1 0 = lookup_tables.edge_table.getD (255 - 1) 0 :=
  ⟨by decide, edge_table_complement 1 (by decide)⟩

/-- C11: run with enough iterations allowed for the three loops, a call of
`Polygonize` ends with the object it started with, every field unchanged, and
with the vector that the fields and the given vector determine; so a second
call on the object left by the first, again on an empty vector, gives the
same vertex sequence, and allowing more iterations changes nothing. -/
theorem PolygonizeSt_object_unchanged (T : LookupTables) (sqrt : F → F) (mc : MarchingCubes F)
    (out : List (Vertex F)) (fuel : Nat) (hx : mc.num_x_steps.toNat ≤ fuel)
    (hy : mc.num_y_steps.toNat ≤ fuel) (hz : mc.num_z_steps.toNat ≤ fuel) :
    PolygonizeSt T sqrt fuel (mc, out) = (mc, mc.Polygonize T sqrt out)
      ∧ (PolygonizeSt T sqrt fuel (mc, out)).1 = mc
      ∧ (PolygonizeSt T sqrt fuel ((PolygonizeSt T sqrt fuel (mc, [])).1, [])).2
          = (PolygonizeSt T sqrt fuel (mc, [])).2
      ∧ ∀ fuel2 : Nat, mc.num_x_steps.toNat ≤ fuel2 → mc.num_y_steps.toNat ≤ fuel2 →
          mc.num_z_steps.toNat ≤ fuel2 →
          PolygonizeSt T sqrt fuel2 (mc, out) = PolygonizeSt T sqrt fuel (mc, out) := by
  have h := PolygonizeSt_eq T sqrt mc out fuel hx hy hz
  have h0 := PolygonizeSt_eq T sqrt mc [] fuel hx hy hz
  refine ⟨h, ?_, ?_, ?_⟩
  · rw [h]
  · rw [h0]
    show (PolygonizeSt T sqrt fuel (mc, [])).2 = mc.Polygonize T sqrt []
    rw [h0]
  · intro fuel2 hx2 hy2 hz2
    rw [h, PolygonizeSt_eq T sqrt mc out fuel2 hx2 hy2 hz2]

/-- Witness of C11: two calls on `unitRegion`, each on the empty vector and
with one iteration allowed per loop, give the same vertices and leave
`unitRegion` as it was. -/
theorem PolygonizeSt_object_unchanged_witness :
    (PolygonizeSt lookup_tables (fun q => q) 1 (unitRegion, [])).1 = unitRegion
      ∧ (PolygonizeSt lookup_tables (fun q => q) 1
          ((PolygonizeSt lookup_tables (fun q => q) 1 (unitRegion, [])).1, [])).2
        = (PolygonizeSt lookup_tables (fun q => q) 1 (unitRegion, [])).2 := by
  have hx : unitRegion.num_x_steps.toNat ≤ 1 := by
    rw [unitRegion_steps.1]
    decide
  have hy : unitRegion.num_y_steps.toNat ≤ 1 := by
    rw [unitRegion_steps.2.1]
    decide
  have hz : unitRegion.num_z_steps.toNat ≤ 1 := by
    rw [unitRegion_steps.2.2]
    decide
  have h := PolygonizeSt_object_unchanged lookup_tables (fun q => q) unitRegion [] 1 hx hy hz
  exact ⟨h.2.1, h.2.2.1⟩

/-- C12, where it fails: the region from `(0, 0, 0)` to `(0, 1, 1)`, degenerate
along x, at resolution 1 is accepted: the constructor returns a polygonizer
with 0 steps along x and no error. -/
theorem constructOutcome_degenerate_ok :
    MarchingCubes.constructOutcome (⟨0, 0, 0⟩ : Point ℚ) ⟨0, 1, 1⟩ 1
        = Except.ok (MarchingCubes.construct ⟨0, 0, 0⟩ ⟨0, 1, 1⟩ 1)
      ∧ (MarchingCubes.construct (⟨0, 0, 0⟩ : Point ℚ) ⟨0, 1, 1⟩ 1).num_x_steps = 0
      ∧ ¬ ∃ e : String,
          MarchingCubes.constructOutcome (⟨0, 0, 0⟩ : Point ℚ) ⟨0, 1, 1⟩ 1 = Except.error e := by
  refine ⟨rfl, by simp [MarchingCubes.construct], ?_⟩
  rintro ⟨e, he⟩
  simp [MarchingCubes.constructOutcome] at he

/-- C12 as amended: the constructor never fails; for a positive resolution
and a region degenerate on an axis (`max ≤ min`) it returns a polygonizer
whose step count on that axis is zero or negative, and for a negative
resolution and `min < max` on an axis the step count on that axis is zero or
negative as well. -/
theorem constructOutcome_never_fails [FloorRing F] (min_pt max_pt : Point F) (resolution : F) :
    MarchingCubes.constructOutcome min_pt max_pt resolution
        = Except.ok (MarchingCubes.construct min_pt max_pt resolution)
      ∧ (0 < resolution →
          (max_pt.x ≤ min_pt.x →
              (MarchingCubes.construct min_pt max_pt resolution).num_x_steps ≤ 0)
          ∧ (max_pt.y ≤ min_pt.y →
              (MarchingCubes.construct min_pt max_pt resolution).num_y_steps ≤ 0)
          ∧ (max_pt.z ≤ min_pt.z →
              (MarchingCubes.construct min_pt max_pt resolution).num_z_steps ≤ 0))
      ∧ (resolution < 0 →
          (min_pt.x < max_pt.x →
              (MarchingCubes.construct min_pt max_pt resolution).num_x_steps ≤ 0)
          ∧ (min_pt.y < max_pt.y →
              (MarchingCubes.construct min_pt max_pt resolution).num_y_steps ≤ 0)
          ∧ (min_pt.z < max_pt.z →
              (MarchingCubes.construct min_pt max_pt resolution).num_z_steps ≤ 0)) := by
  refine ⟨rfl, fun hres => ⟨fun h => ?_, fun h => ?_, fun h => ?_⟩,
    fun hres => ⟨fun h => ?_, fun h => ?_, fun h => ?_⟩⟩
  all_goals
    simp only [MarchingCubes.construct, Int.ceil_le, Int.cast_zero]
  · exact div_nonpos_of_nonpos_of_nonneg (sub_nonpos.2 h) hres.le
  · exact div_nonpos_of_nonpos_of_nonneg (sub_nonpos.2 h) hres.le
  · exact div_nonpos_of_nonpos_of_nonneg (sub_nonpos.2 h) hres.le
  · exact div_nonpos_of_nonneg_of_nonpos (sub_nonneg.2 h.le) hres.le
  · exact div_nonpos_of_nonneg_of_nonpos (sub_nonneg.2 h.le) hres.le
  · exact div_nonpos_of_nonneg_of_nonpos (sub_nonneg.2 h.le) hres.le

/-- Witness of C12 as amended: the region from `(0, 0, 0)` to `(0, 1, 1)` at
resolution 1 has a step count along x that is not positive. -/
theorem constructOutcome_never_fails_witness :
    (0 : ℚ) < 1 ∧ (0 : ℚ) ≤ 0
      ∧ (MarchingCubes.construct (⟨0, 0, 0⟩ : Point ℚ) ⟨0, 1, 1⟩ 1).num_x_steps ≤ 0 :=
  ⟨by norm_num, le_refl _,
    ((constructOutcome_never_fails (⟨0, 0, 0⟩ : Point ℚ) ⟨0, 1, 1⟩ 1).2.1 (by norm_num)).1
      (le_refl _)⟩

set_option maxRecDepth 100000 in
/-- C13, where it fails: in binary32, for the polygonizer of `main.cpp`
(`start_pt = -1.25f`, `resolution = .1f`) and the cell `(2, 0, 0)`, the x
coordinate of corner 1, `start_pt.x + resolution*(x+1)`, is
`-15938355 * 2^-24`, while `o.x + r` for `o` = corner 0 is `-7969177 * 2^-23`,
one unit in the last place away. -/
theorem cell_corner_one_binary32 :
    ((cell32 ⟨Float32.ofRatio (-5) 4, Float32.ofRatio (-5) 4, Float32.ofRatio (-5) 4⟩
        (Float32.ofRatio 1 10) 2 0 0).bounds 1).x = Float32.fin (-15938355 * 2 ^ 125)
      ∧ Float32.add
          ((cell32 ⟨Float32.ofRatio (-5) 4, Float32.ofRatio (-5) 4, Float32.ofRatio (-5) 4⟩
            (Float32.ofRatio 1 10) 2 0 0).bounds 0).x (Float32.ofRatio 1 10)
          = Float32.fin (-7969177 * 2 ^ 126)
      ∧ ((cell32 ⟨Float32.ofRatio (-5) 4, Float32.ofRatio (-5) 4, Float32.ofRatio (-5) 4⟩
          (Float32.ofRatio 1 10) 2 0 0).bounds 1).x
        ≠ Float32.add
          ((cell32 ⟨Float32.ofRatio (-5) 4, Float32.ofRatio (-5) 4, Float32.ofRatio (-5) 4⟩
            (Float32.ofRatio 1 10) 2 0 0).bounds 0).x (Float32.ofRatio 1 10) := by
  decide

/-- C13 as amended: in exact arithmetic, with `o = start_pt + resolution *
(x, y, z)` and `r = resolution`, the cell `(x, y, z)` has corner 0 at `o`,
corner 1 at `o + (r, 0, 0)`, corner 2 at `o + (r, r, 0)`, corner 3 at
`o + (0, r, 0)`, and corner `i + 4` at corner `i` moved by `(0, 0, r)` for
`i = 0..3`. -/
theorem cell_corners (mc : MarchingCubes F) (x y z : Nat) :
    (mc.cell x y z).bounds 0
        = ⟨mc.start_pt.x + mc.resolution * x, mc.start_pt.y + mc.resolution * y,
            mc.start_pt.z + mc.resolution * z⟩
      ∧ (mc.cell x y z).bounds 1
        = ⟨mc.start_pt.x + mc.resolution * x + mc.resolution, mc.start_pt.y + mc.resolution * y,
            mc.start_pt.z + mc.resolution * z⟩
      ∧ (mc.cell x y z).bounds 2
        = ⟨mc.start_pt.x + mc.resolution * x + mc.resolution,
            mc.start_pt.y + mc.resolution * y + mc.resolution,
            mc.start_pt.z + mc.resolution * z⟩
      ∧ (mc.cell x y z).bounds 3
        = ⟨mc.start_pt.x + mc.resolution * x, mc.start_pt.y + mc.resolution * y + mc.resolution,
            mc.start_pt.z + mc.resolution * z⟩
      ∧ (mc.cell x y z).bounds 4
        = ⟨((mc.cell x y z).bounds 0).x, ((mc.cell x y z).bounds 0).y,
            ((mc.cell x y z).bounds 0).z + mc.resolution⟩
      ∧ (mc.cell x y z).bounds 5
        = ⟨((mc.cell x y z).bounds 1).x, ((mc.cell x y z).bounds 1).y,
            ((mc.cell x y z).bounds 1).z + mc.resolution⟩
      ∧ (mc.cell x y z).bounds 6
        = ⟨((mc.cell x y z).bounds 2).x, ((mc.cell x y z).bounds 2).y,
            ((mc.cell x y z).bounds 2).z + mc.resolution⟩
      ∧ (mc.cell x y z).bounds 7
        = ⟨((mc.cell x y z).bounds 3).x, ((mc.cell x y z).bounds 3).y,
            ((mc.cell x y z).bounds 3).z + mc.resolution⟩ := by
  have hx : mc.resolution * ((x + 1 : Nat) : F) = mc.resolution * x + mc.resolution := by
    push_cast; ring
  have hy : mc.resolution * ((y + 1 : Nat) : F) = mc.resolution * y + mc.resolution := by
    push_cast; ring
  have hz : mc.resolution * ((z + 1 : Nat) : F) = mc.resolution * z + mc.resolution := by
    push_cast; ring
  refine ⟨rfl, ?_, ?_, ?_, ?_, ?_, ?_, ?_⟩ <;>
    simp only [MarchingCubes.cell, Matrix.cons_val_zero, Matrix.cons_val_one, Matrix.head_cons,
      Matrix.cons_val_two, Matrix.tail_cons, Matrix.cons_val_three, Matrix.cons_val_four,
      vec8_five, vec8_six, vec8_seven, hx, hy, hz, add_assoc]

/-- C14: with the edge-to-corner table `{0,1},{1,2},{2,3},{3,0},{4,5},{5,6},
{6,7},{7,4},{0,4},{1,5},{2,6},{3,7}` of `PolygonizeCube`, for every
configuration `c` in 0..255 and every edge `e` in 0..11 with corners
`(a, b)`, bit `e` of `edge_table[c]` is set exactly when the bits `a` and `b`
of `c` differ; the test of line 100 reads that bit. -/
theorem edge_table_bit_iff_corners_differ (c e : Nat) (hc : c < 256) (he : e < 12) :
    edges = [(0, 1), (1, 2), (2, 3), (3, 0), (4, 5), (5, 6), (6, 7), (7, 4),
        (0, 4), (1, 5), (2, 6), (3, 7)]
      ∧ ((lookup_tables.edge_table.getD c 0).testBit e = true
          ↔ c.testBit (edges.getD e (0, 0)).1.val ≠ c.testBit (edges.getD e (0, 0)).2.val)
      ∧ (edgeFlagged lookup_tables c e = true
          ↔ c.testBit (edges.getD e (0, 0)).1.val ≠ c.testBit (edges.getD e (0, 0)).2.val) := by
  obtain ⟨h1, h2⟩ := edge_table_bit_iff c hc e he
  refine ⟨rfl, h1, ?_⟩
  rw [h2]
  exact h1

/-- Witness of C14: configuration 1 (corner 0 inside) and edge 3, between the
corners 3 and 0. -/
theorem edge_table_bit_iff_corners_differ_witness :
    (lookup_tables.edge_table.getD 1 0).testBit 3 = true
      ↔ Nat.testBit 1 (edges.getD 3 (0, 0)).1.val ≠ Nat.testBit 1 (edges.getD 3 (0, 0)).2.val :=
  (edge_table_bit_iff_corners_differ 1 3 (by decide) (by decide)).2.1

/-- C17: for every configuration `c` in 0..255, every entry of `tri_table[c]`
in a leading triple without `-1` is in 0..11 and names an edge flagged by
`edge_table[c]`; so the entry of `vertex_edges` read for it is inside the 12
entries and is the point the interpolation loop wrote for that edge. -/
theorem tri_table_reads_written_edges (c j t : Nat) (hc : c < 256)
    (hj : j < triangleCount (lookup_tables.tri_table.getD c [])) (ht : t < 3)
    (iso_value : F) (cube : GridCell F) (values : Fin 8 → F) :
    0 ≤ (lookup_tables.tri_table.getD c []).getD (3 * j + t) (-1)
      ∧ (lookup_tables.tri_table.getD c []).getD (3 * j + t) (-1) < 12
      ∧ edgeFlagged lookup_tables c
          ((lookup_tables.tri_table.getD c []).getD (3 * j + t) (-1)).toNat = true
      ∧ ((lookup_tables.tri_table.getD c []).getD (3 * j + t) (-1)).toNat
          < (vertex_edges lookup_tables iso_value cube values c).length
      ∧ (vertex_edges lookup_tables iso_value cube values c).getD
            ((lookup_tables.tri_table.getD c []).getD (3 * j + t) (-1)).toNat ⟨0, 0, 0⟩
          = interpolate iso_value cube values
              ((lookup_tables.tri_table.getD c []).getD (3 * j + t) (-1)).toNat := by
  obtain ⟨h0, h12, hflag⟩ := tri_table_entries_flagged c hc j hj t ht
  have hlt : ((lookup_tables.tri_table.getD c []).getD (3 * j + t) (-1)).toNat < 12 := by omega
  refine ⟨h0, h12, hflag, ?_, ?_⟩
  · rw [vertex_edges_length]
    exact hlt
  · rw [vertex_edges_getD _ _ _ _ _ _ hlt, if_pos hflag]

/-- Witness of C17: the first entry of `tri_table[1]` is edge 0, flagged by
`edge_table[1]`. -/
theorem tri_table_reads_written_edges_witness :
    (1 : Nat) < 256 ∧ 0 < triangleCount (lookup_tables.tri_table.getD 1 []) ∧ (0 : Nat) < 3
      ∧ edgeFlagged lookup_tables 1
          ((lookup_tables.tri_table.getD 1 []).getD (3 * 0 + 0) (-1)).toNat = true := by
  have hk : 0 < triangleCount (lookup_tables.tri_table.getD 1 []) := by
    rw [tri_table_one]
    decide
  exact ⟨by decide, hk, by decide,
    (tri_table_reads_written_edges 1 0 0 (by decide) hk (by decide) (0 : ℚ)
      (unitRegion.cell 0 0 0) cornerZeroInside).2.2.1⟩

/-- C19: for a positive resolution and an axis with `min < max`, the step
count `n` of the constructor is at least 1, `n` cells reach the maximum
(`min + resolution * n ≥ max`) and `n - 1` cells do not
(`min + resolution * (n - 1) < max`); stated for each of the three axes. -/
theorem construct_steps_cover [FloorRing F] (min_pt max_pt : Point F) (resolution : F)
    (hres : 0 < resolution) :
    (min_pt.x < max_pt.x →
        1 ≤ (MarchingCubes.construct min_pt max_pt resolution).num_x_steps
        ∧ max_pt.x ≤ min_pt.x
            + resolution * ((MarchingCubes.construct min_pt max_pt resolution).num_x_steps : F)
        ∧ min_pt.x + resolution
            * (((MarchingCubes.construct min_pt max_pt resolution).num_x_steps : F) - 1)
          < max_pt.x)
      ∧ (min_pt.y < max_pt.y →
        1 ≤ (MarchingCubes.construct min_pt max_pt resolution).num_y_steps
        ∧ max_pt.y ≤ min_pt.y
            + resolution * ((MarchingCubes.construct min_pt max_pt resolution).num_y_steps : F)
        ∧ min_pt.y + resolution
            * (((MarchingCubes.construct min_pt max_pt resolution).num_y_steps : F) - 1)
          < max_pt.y)
      ∧ (min_pt.z < max_pt.z →
        1 ≤ (MarchingCubes.construct min_pt max_pt resolution).num_z_steps
        ∧ max_pt.z ≤ min_pt.z
            + resolution * ((MarchingCubes.construct min_pt max_pt resolution).num_z_steps : F)
        ∧ min_pt.z + resolution
            * (((MarchingCubes.construct min_pt max_pt resolution).num_z_steps : F) - 1)
          < max_pt.z) := by
  have key : ∀ lo hi : F, lo < hi →
      1 ≤ ⌈(hi - lo) / resolution⌉
        ∧ hi ≤ lo + resolution * (⌈(hi - lo) / resolution⌉ : F)
        ∧ lo + resolution * ((⌈(hi - lo) / resolution⌉ : F) - 1) < hi := by
    intro lo hi h
    have hq : 0 < (hi - lo) / resolution := div_pos (sub_pos.2 h) hres
    have h1 : (hi - lo) / resolution ≤ (⌈(hi - lo) / resolution⌉ : F) := Int.le_ceil _
    have h2 : (⌈(hi - lo) / resolution⌉ : F) < (hi - lo) / resolution + 1 := Int.ceil_lt_add_one _
    have hmul : resolution * ((hi - lo) / resolution) = hi - lo := by
      field_simp
    refine ⟨Int.add_one_le_iff.2 (Int.ceil_pos.2 hq), ?_, ?_⟩
    · have := mul_le_mul_of_nonneg_left h1 hres.le
      rw [hmul] at this
      linarith
    · have := mul_lt_mul_of_pos_left h2 hres
      rw [mul_add, hmul, mul_one] at this
      rw [mul_sub, mul_one]
      linarith
  exact ⟨key _ _, key _ _, key _ _⟩

/-- Witness of C19: the region `[-5/4, 5/4]³` of `main.cpp` at resolution
`1/10` has at least one step along x. -/
theorem construct_steps_cover_witness :
    (0 : ℚ) < 1 / 10 ∧ (-5 / 4 : ℚ) < 5 / 4
      ∧ 1 ≤ (MarchingCubes.construct (⟨-5/4, -5/4, -5/4⟩ : Point ℚ) ⟨5/4, 5/4, 5/4⟩
          (1 / 10)).num_x_steps :=
  ⟨by norm_num, by norm_num,
    ((construct_steps_cover (⟨-5/4, -5/4, -5/4⟩ : Point ℚ) ⟨5/4, 5/4, 5/4⟩ (1 / 10)
      (by norm_num)).1 (by norm_num)).1⟩

/-- C20: for a positive resolution and a region degenerate on some axis
(`max ≤ min`), the step count of that axis is zero or negative, the grid has
no cell, and `Polygonize` returns the sequence it was given. -/
theorem Polygonize_degenerate_region [FloorRing F] (T : LookupTables) (sqrt : F → F)
    (min_pt max_pt : Point F) (resolution : F) (hres : 0 < resolution)
    (hdeg : max_pt.x ≤ min_pt.x ∨ max_pt.y ≤ min_pt.y ∨ max_pt.z ≤ min_pt.z)
    (out : List (Vertex F)) :
    (max_pt.x ≤ min_pt.x → (MarchingCubes.construct min_pt max_pt resolution).num_x_steps ≤ 0)
      ∧ (max_pt.y ≤ min_pt.y → (MarchingCubes.construct min_pt max_pt resolution).num_y_steps ≤ 0)
      ∧ (max_pt.z ≤ min_pt.z → (MarchingCubes.construct min_pt max_pt resolution).num_z_steps ≤ 0)
      ∧ cellOrder (MarchingCubes.construct min_pt max_pt resolution).num_x_steps.toNat
          (MarchingCubes.construct min_pt max_pt resolution).num_y_steps.toNat
          (MarchingCubes.construct min_pt max_pt resolution).num_z_steps.toNat = []
      ∧ (MarchingCubes.construct min_pt max_pt resolution).Polygonize T sqrt out = out := by
  have key : ∀ lo hi : F, hi ≤ lo → ⌈(hi - lo) / resolution⌉ ≤ 0 := by
    intro lo hi h
    rw [Int.ceil_le, Int.cast_zero]
    exact div_nonpos_of_nonpos_of_nonneg (sub_nonpos.2 h) hres.le
  have hcells : cellOrder (MarchingCubes.construct min_pt max_pt resolution).num_x_steps.toNat
      (MarchingCubes.construct min_pt max_pt resolution).num_y_steps.toNat
      (MarchingCubes.construct min_pt max_pt resolution).num_z_steps.toNat = [] := by
    rw [List.eq_nil_iff_forall_not_mem]
    rintro ⟨x, y, z⟩ hmem
    rw [mem_cellOrder, Int.lt_toNat, Int.lt_toNat, Int.lt_toNat] at hmem
    obtain ⟨hx, hy, hz⟩ := hmem
    rcases hdeg with h | h | h
    · have := key _ _ h
      simp only [MarchingCubes.construct] at hx
      omega
    · have := key _ _ h
      simp only [MarchingCubes.construct] at hy
      omega
    · have := key _ _ h
      simp only [MarchingCubes.construct] at hz
      omega
  refine ⟨key _ _, key _ _, key _ _, hcells, ?_⟩
  rw [Polygonize_eq_flatMap, ← cellOrder_flatMap _ _ _
    (fun c => (MarchingCubes.construct min_pt max_pt resolution).PolygonizeCube T sqrt
      ((MarchingCubes.construct min_pt max_pt resolution).cell c.1 c.2.1 c.2.2) []), hcells]
  simp

/-- Witness of C20: the region from `(0, 0, 0)` to `(0, 1, 1)` at resolution 1
has no cell and leaves the empty sequence empty. -/
theorem Polygonize_degenerate_region_witness :
    (0 : ℚ) < 1 ∧ (0 : ℚ) ≤ 0
      ∧ (MarchingCubes.construct (⟨0, 0, 0⟩ : Point ℚ) ⟨0, 1, 1⟩ 1).Polygonize lookup_tables
          (fun q => q) [] = [] :=
  ⟨by norm_num, le_refl _,
    (Polygonize_degenerate_region lookup_tables (fun q => q) (⟨0, 0, 0⟩ : Point ℚ) ⟨0, 1, 1⟩ 1
      (by norm_num) (Or.inl (le_refl _)) []).2.2.2.2⟩

end Claims

end MarchingCubesDemo
